import Mathlib

/-!
# App Mesh virtual service data source

A shallow embedding of `internal/service/appmesh/virtual_service_data_source.go`
(`dataSourceVirtualServiceRead`) and the properties of its read path.

The read is straight-line Go code with early returns.  Its collaborators are
made explicit:

* the upstream calls (`findVirtualServiceByThreePartKey`, `listTags`), the spec
  flattener and the verdict of the attribute store on each write are fields of
  `Client`, so every theorem ranges over all of their behaviours;
* the attribute store `*schema.ResourceData` is a value threaded through the
  read, together with the list of calls issued so far;
* a Go nil-pointer dereference is an outcome of its own (`Outcome.nilDereference`).

Go pointers (`*string`, `*time.Time`, `*ResourceMetadata`, ...) are `Option`s;
Go `error`s are the text of their `Error()`.
-/

namespace AppMesh

/-! ## Go standard library: `time.Time` and its RFC 3339 rendering -/

/-- A `time.Time` as its accessors show it in its own location: `Date()`,
`Clock()`, `Nanosecond()` and the offset of `Zone()` in seconds east of UTC. -/
structure Time where
  year : Int
  month : Nat
  day : Nat
  hour : Nat
  min : Nat
  sec : Nat
  nsec : Nat
  offset : Int
deriving DecidableEq, Repr

/-- Go `utod` of package time: the digit character of `u`, `'0' + byte(u)`. -/
def utod (u : Nat) : Char := Char.ofNat (48 + u)

/-- Go `appendInt` of package time: the decimal form of `x`, zero-padded to
`width` digits, appended to `b`; a negative `x` gets a leading minus sign.  The
two fast paths of the Go code (widths 2 and 4) are kept. -/
def appendInt (b : List Char) (x : Int) (width : Nat) : List Char :=
  let u := x.natAbs
  let b := if x < 0 then b ++ ['-'] else b
  if width = 2 ∧ u < 100 then
    b ++ [utod (u / 10), utod (u % 10)]
  else if width = 4 ∧ u < 10000 then
    b ++ [utod (u / 1000), utod (u / 100 % 10), utod (u / 10 % 10), utod (u % 10)]
  else
    let ds := Nat.toDigits 10 u
    b ++ List.replicate (width - ds.length) '0' ++ ds

/-- Go `Time.appendFormatRFC3339` without the nanoseconds (layout
`time.RFC3339 = "2006-01-02T15:04:05Z07:00"`): date, `T`, clock, then `Z` for a
zero offset and otherwise the signed offset in hours and minutes.  The offset
is converted to minutes by Go's truncating division. -/
def appendFormatRFC3339 (t : Time) : List Char :=
  let b := appendInt [] t.year 4
  let b := b ++ ['-']
  let b := appendInt b t.month 2
  let b := b ++ ['-']
  let b := appendInt b t.day 2
  let b := b ++ ['T']
  let b := appendInt b t.hour 2
  let b := b ++ [':']
  let b := appendInt b t.min 2
  let b := b ++ [':']
  let b := appendInt b t.sec 2
  if t.offset = 0 then
    b ++ ['Z']
  else
    let zone := t.offset.tdiv 60
    let b := if zone < 0 then b ++ ['-'] else b ++ ['+']
    let zone := zone.natAbs
    let b := appendInt b ((zone / 60 : Nat) : Int) 2
    let b := b ++ [':']
    appendInt b ((zone % 60 : Nat) : Int) 2

/-- The call `t.Format(time.RFC3339)` of lines 78 and 79. -/
def Time.Format_RFC3339 (t : Time) : String :=
  String.mk (appendFormatRFC3339 t)

/-- Go `strings.HasPrefix`. -/
def HasPrefix (s pre : String) : Bool :=
  pre.toList.isPrefixOf s.toList

/-- The call `aws.StringValue`: the string a `*string` points to, `""` for nil. -/
def StringValue (p : Option String) : String :=
  match p with
  | some s => s
  | none => ""

/-! ## The upstream record: `appmesh.VirtualServiceData`, the consumed fields -/

/-- The SDK type `appmesh.ResourceMetadata`. -/
structure ResourceMetadata where
  Arn : Option String
  CreatedAt : Option Time
  LastUpdatedAt : Option Time
  MeshOwner : Option String
  ResourceOwner : Option String
deriving DecidableEq, Repr

/-- The SDK type `appmesh.VirtualServiceProvider`: a virtual node or a virtual
router, each named by one string. -/
structure VirtualServiceProvider where
  VirtualNode : Option (Option String)
  VirtualRouter : Option (Option String)
deriving DecidableEq, Repr

/-- The SDK type `appmesh.VirtualServiceSpec`. -/
structure VirtualServiceSpec where
  Provider : Option VirtualServiceProvider
deriving DecidableEq, Repr

/-- The SDK type `appmesh.VirtualServiceData`. -/
structure VirtualServiceData where
  MeshName : Option String
  Metadata : Option ResourceMetadata
  Spec : Option VirtualServiceSpec
  VirtualServiceName : Option String
deriving DecidableEq, Repr

/-! ## Tags -/

/-- The type `tftags.KeyValueTags`, a map from tag key to tag value, as the
list of its entries.  The nil map of `var tags tftags.KeyValueTags` is `[]`. -/
abbrev KeyValueTags := List (String × String)

/-- The type `tftags.IgnoreConfig`: the keys and key prefixes the caller asked
to suppress. -/
structure IgnoreConfig where
  Keys : List String
  KeyPrefixes : List String
deriving DecidableEq, Repr

/-- Modelled from the spec: `KeyValueTags.IgnoreAWS` (package internal/tags is
not among the sources), the "ignore well-known platform-managed tags" filter
of §4.4; the platform-managed keys are those of the form `aws:*` (§8). -/
def IgnoreAWS (tags : KeyValueTags) : KeyValueTags :=
  tags.filter (fun kv => !HasPrefix kv.1 "aws:")

/-- Whether the caller's ignore configuration suppresses the key `k`: it is one
of the listed keys or starts with one of the listed prefixes. -/
def IgnoreConfig.ignores (cfg : IgnoreConfig) (k : String) : Bool :=
  cfg.Keys.contains k || cfg.KeyPrefixes.any (fun p => HasPrefix k p)

/-- Modelled from the spec: `KeyValueTags.IgnoreConfig` (package internal/tags
is not among the sources), the "caller-supplied ignore configuration that
suppresses user-specified keys/prefixes" of §4.4.  A nil configuration
suppresses nothing. -/
def IgnoreConfigFilter (tags : KeyValueTags) (config : Option IgnoreConfig) : KeyValueTags :=
  match config with
  | none => tags
  | some cfg => tags.filter (fun kv => !cfg.ignores kv.1)

/-- Modelled from the spec: `KeyValueTags.Map` (package internal/tags is not
among the sources), the string-to-string mapping of the tags (§4.4 step 4). -/
def KeyValueTags.Map (tags : KeyValueTags) : List (String × String) :=
  tags

/-! ## The attribute store and the diagnostics -/

/-- One flattened `provider` block of the read-side `spec` schema. -/
structure ProviderBlock where
  virtual_node : List String
  virtual_router : List String
deriving DecidableEq, Repr

/-- One flattened `spec` block. -/
structure SpecBlock where
  provider : List ProviderBlock
deriving DecidableEq, Repr

/-- A value handed to `d.Set`.  `null` is the nil a nil pointer turns into. -/
inductive AttrValue where
  | null
  | str (s : String)
  | blocks (l : List SpecBlock)
  | tagMap (m : List (String × String))
deriving DecidableEq, Repr

/-- The attribute store `*schema.ResourceData`: the id (`""` is unset) and the
attributes written or supplied so far. -/
structure ResourceData where
  id : String
  attrs : String → Option AttrValue

/-- The read `d.Get(key).(string)` of a string attribute: `""` when the
attribute is absent or nil. -/
def ResourceData.GetString (d : ResourceData) (key : String) : String :=
  match d.attrs key with
  | some (.str s) => s
  | _ => ""

/-- Severity of a diagnostic (`diag.Severity`). -/
inductive Severity where
  | Error
  | Warning
deriving DecidableEq, Repr

/-- One record of `diag.Diagnostics`. -/
structure Diagnostic where
  severity : Severity
  summary : String
deriving DecidableEq, Repr

/-- Modelled from the spec: `sdkdiag.AppendErrorf` (package internal/errs/sdkdiag
is not among the sources), the "append-with-format-error" of §6: one
error-level diagnostic carrying the formatted message is appended.  The
`%s` formatting is done by the caller with `++`. -/
def AppendErrorf (diags : List Diagnostic) (msg : String) : List Diagnostic :=
  diags ++ [{ severity := .Error, summary := msg }]

/-! ## Collaborators and the trace of calls -/

/-- What the read is handed besides the store: `meta.(*conns.AWSClient)` with
its account id and ignore-tags configuration, the two upstream calls made
through the connection, the spec flattener and the attribute store's verdict
on a write (`none` accepts, `some reason` rejects). -/
structure Client where
  AccountID : String
  IgnoreTagsConfig : Option IgnoreConfig
  findVirtualServiceByThreePartKey :
    String → String → String → Except String (Option VirtualServiceData)
  listTags : String → Except String KeyValueTags
  flattenVirtualServiceSpec : Option VirtualServiceSpec → List SpecBlock
  setError : String → AttrValue → Option String

/-- A call the read makes on a collaborator. -/
inductive Call where
  | findVirtualServiceByThreePartKey (meshName meshOwner name : String)
  | listTags (arn : String)
  | SetId (v : String)
  | Set (key : String) (value : AttrValue)
deriving DecidableEq, Repr

/-- The store and the calls issued so far. -/
structure State where
  d : ResourceData
  calls : List Call

/-- The call `d.SetId(v)`. -/
def SetId (s : State) (v : String) : State :=
  { d := { s.d with id := v }, calls := s.calls ++ [Call.SetId v] }

/-- The call `d.Set(key, value)`: the store either rejects the write with an
error and keeps its contents, or takes the value. -/
def Set (c : Client) (s : State) (key : String) (value : AttrValue) : State × Option String :=
  match c.setError key value with
  | some err => ({ s with calls := s.calls ++ [Call.Set key value] }, some err)
  | none =>
    ({ d := { s.d with attrs := fun k => if k = key then some value else s.d.attrs k },
       calls := s.calls ++ [Call.Set key value] }, none)

/-- The value `d.Set` sees for a `*string` argument: the string, or nil. -/
def ptrValue (p : Option String) : AttrValue :=
  match p with
  | some s => .str s
  | none => .null

/-- How a read ends: it returns its diagnostics, or panics on a nil pointer. -/
inductive Outcome where
  | returned (diags : List Diagnostic)
  | nilDereference
deriving DecidableEq, Repr

/-- A finished read: outcome, final store, and the calls in order. -/
structure Run where
  outcome : Outcome
  d : ResourceData
  calls : List Call

/-! ## The read -/

/-- Lines 102 to 106: filter the tags, write them, return. -/
def setTags (c : Client) (diags : List Diagnostic) (s : State) (tags : KeyValueTags) : Run :=
  let r := Set c s "tags"
    (.tagMap (KeyValueTags.Map (IgnoreConfigFilter (IgnoreAWS tags) c.IgnoreTagsConfig)))
  match r.2 with
  | some err => ⟨.returned (AppendErrorf diags ("setting tags: " ++ err)), r.1.d, r.1.calls⟩
  | none => ⟨.returned diags, r.1.d, r.1.calls⟩

/-- Lines 92 to 106: the tag step.  Tags are listed only when the record's mesh
owner is the caller's account. -/
def readTags (c : Client) (diags : List Diagnostic) (s : State) (arn meshOwner : String) : Run :=
  if meshOwner = c.AccountID then
    let s : State := { s with calls := s.calls ++ [Call.listTags arn] }
    match c.listTags arn with
    | .error err =>
      ⟨.returned (AppendErrorf diags
        ("listing tags for App Mesh Virtual Service (" ++ arn ++ "): " ++ err)), s.d, s.calls⟩
    | .ok tags => setTags c diags s tags
  else
    setTags c diags s []

/-- The function `dataSourceVirtualServiceRead` (lines 63 to 107). -/
def dataSourceVirtualServiceRead (c : Client) (d : ResourceData) : Run :=
  let diags : List Diagnostic := []
  let virtualServiceName := d.GetString "name"
  let meshName := d.GetString "mesh_name"
  let meshOwnerArg := d.GetString "mesh_owner"
  let s : State :=
    { d := d, calls := [Call.findVirtualServiceByThreePartKey meshName meshOwnerArg virtualServiceName] }
  match c.findVirtualServiceByThreePartKey meshName meshOwnerArg virtualServiceName with
  | .error err =>
    ⟨.returned (AppendErrorf diags
      ("reading App Mesh Virtual Service (" ++ virtualServiceName ++ "): " ++ err)), s.d, s.calls⟩
  | .ok none => ⟨.nilDereference, s.d, s.calls⟩
  | .ok (some vs) =>
    let s := SetId s (StringValue vs.VirtualServiceName)
    match vs.Metadata with
    | none => ⟨.nilDereference, s.d, s.calls⟩
    | some md =>
      let arn := StringValue md.Arn
      let s := (Set c s "arn" (.str arn)).1
      match md.CreatedAt with
      | none => ⟨.nilDereference, s.d, s.calls⟩
      | some createdAt =>
        let s := (Set c s "created_date" (.str createdAt.Format_RFC3339)).1
        match md.LastUpdatedAt with
        | none => ⟨.nilDereference, s.d, s.calls⟩
        | some lastUpdatedAt =>
          let s := (Set c s "last_updated_date" (.str lastUpdatedAt.Format_RFC3339)).1
          let s := (Set c s "mesh_name" (ptrValue vs.MeshName)).1
          let meshOwner := StringValue md.MeshOwner
          let s := (Set c s "mesh_owner" (.str meshOwner)).1
          let s := (Set c s "name" (ptrValue vs.VirtualServiceName)).1
          let s := (Set c s "resource_owner" (ptrValue md.ResourceOwner)).1
          let r := Set c s "spec" (.blocks (c.flattenVirtualServiceSpec vs.Spec))
          match r.2 with
          | some err =>
            ⟨.returned (AppendErrorf diags ("setting spec: " ++ err)), r.1.d, r.1.calls⟩
          | none => readTags c diags r.1 arn meshOwner

/-- The store and the calls after lines 75 to 84, for a record whose metadata
and both timestamps are present: `SetId` and the seven string writes, whose
errors the read does not look at. -/
def afterStrings (c : Client) (d : ResourceData) (vs : VirtualServiceData)
    (md : ResourceMetadata) (createdAt lastUpdatedAt : Time) : State :=
  let s : State :=
    { d := d,
      calls := [Call.findVirtualServiceByThreePartKey (d.GetString "mesh_name")
        (d.GetString "mesh_owner") (d.GetString "name")] }
  let s := SetId s (StringValue vs.VirtualServiceName)
  let s := (Set c s "arn" (.str (StringValue md.Arn))).1
  let s := (Set c s "created_date" (.str createdAt.Format_RFC3339)).1
  let s := (Set c s "last_updated_date" (.str lastUpdatedAt.Format_RFC3339)).1
  let s := (Set c s "mesh_name" (ptrValue vs.MeshName)).1
  let s := (Set c s "mesh_owner" (.str (StringValue md.MeshOwner))).1
  let s := (Set c s "name" (ptrValue vs.VirtualServiceName)).1
  (Set c s "resource_owner" (ptrValue md.ResourceOwner)).1

/-- The store and the calls after the write of `spec` on line 85. -/
def afterSpec (c : Client) (d : ResourceData) (vs : VirtualServiceData)
    (md : ResourceMetadata) (createdAt lastUpdatedAt : Time) : State :=
  (Set c (afterStrings c d vs md createdAt lastUpdatedAt) "spec"
    (.blocks (c.flattenVirtualServiceSpec vs.Spec))).1

/-! ## Predicates on calls -/

/-- Is the call a call of the resolver? -/
def Call.isFind : Call → Bool
  | .findVirtualServiceByThreePartKey _ _ _ => true
  | _ => false

/-- Is the call a tag-list call? -/
def Call.isListTags : Call → Bool
  | .listTags _ => true
  | _ => false

/-- Is the call a write to the store (`SetId` or `Set`)? -/
def Call.isWrite : Call → Bool
  | .SetId _ => true
  | .Set _ _ => true
  | _ => false

/-- Is the call a `Set` of the attribute `key`? -/
def Call.isSetOf (key : String) : Call → Bool
  | .Set k _ => k == key
  | _ => false

/-- Does the list of diagnostics hold an error? -/
def hasError (diags : List Diagnostic) : Bool :=
  diags.any (fun g => g.severity == .Error)

/-- Did the read end by returning diagnostics that hold an error? -/
def Outcome.isError : Outcome → Bool
  | .returned diags => hasError diags
  | .nilDereference => false

/-- The seven string attributes written on lines 77 to 84, whose write errors
the read does not look at. -/
def stringAttrs : List String :=
  ["arn", "created_date", "last_updated_date", "mesh_name", "mesh_owner", "name",
    "resource_owner"]

/-- The client `c` with a store that takes every write of a string attribute and
answers the writes of `spec` and `tags` as the store of `c` does. -/
def acceptStrings (c : Client) : Client :=
  { c with setError := fun k v => if k ∈ stringAttrs then none else c.setError k v }

/-- Whether a (possibly nil) ignore configuration suppresses the key `k`. -/
def configIgnores (config : Option IgnoreConfig) (k : String) : Bool :=
  match config with
  | none => false
  | some cfg => cfg.ignores k

/-! ## Shapes of rendered timestamps -/

/-- A timestamp in the range RFC 3339 can express: a year of four digits, civil
date and clock fields, and a zone offset of less than a day. -/
def Time.InRange (t : Time) : Prop :=
  0 ≤ t.year ∧ t.year ≤ 9999 ∧ 1 ≤ t.month ∧ t.month ≤ 12 ∧ 1 ≤ t.day ∧ t.day ≤ 31 ∧
    t.hour < 24 ∧ t.min < 60 ∧ t.sec < 60 ∧ -86400 < t.offset ∧ t.offset < 86400

instance (t : Time) : Decidable t.InRange := by
  unfold Time.InRange; infer_instance

/-- Is the text `dddd-dd-ddTdd:dd:dd`, a date and a clock to the second? -/
def isDateTimeSeconds : List Char → Bool
  | [y1, y2, y3, y4, p1, m1, m2, p2, d1, d2, p3, h1, h2, p4, n1, n2, p5, s1, s2] =>
    [y1, y2, y3, y4, m1, m2, d1, d2, h1, h2, n1, n2, s1, s2].all Char.isDigit &&
      p1 == '-' && p2 == '-' && p3 == 'T' && p4 == ':' && p5 == ':'
  | _ => false

/-- Is the text a numeric offset `+hh:mm` or `-hh:mm`? -/
def isNumericOffset : List Char → Bool
  | [sign, h1, h2, p, m1, m2] =>
    (sign == '+' || sign == '-') && p == ':' && [h1, h2, m1, m2].all Char.isDigit
  | _ => false

/-- Does the text end in a numeric offset `+hh:mm` or `-hh:mm`? -/
def endsInNumericOffset (s : String) : Bool :=
  isNumericOffset (s.data.drop (s.data.length - 6))

/-- Is the text RFC 3339 with second precision: date and clock to the second,
directly followed by the zone, `Z` or a numeric offset? -/
def isRFC3339Seconds (s : String) : Bool :=
  isDateTimeSeconds (s.data.take 19) &&
    (s.data.drop 19 == ['Z'] || isNumericOffset (s.data.drop 19))

/-! ## Fixtures: the scenarios of §8 -/

/-- A creation time in UTC with a sub-second part. -/
def createdAtFixture : Time :=
  { year := 2023, month := 1, day := 2, hour := 3, min := 4, sec := 5, nsec := 678000000,
    offset := 0 }

/-- An update time in a zone five and a half hours east of UTC. -/
def lastUpdatedAtFixture : Time :=
  { year := 2023, month := 6, day := 7, hour := 8, min := 9, sec := 10, nsec := 0,
    offset := 19800 }

/-- The metadata of the fixture record: mesh and resource owned by account `A`. -/
def metadataFixture : ResourceMetadata :=
  { Arn := some "arn:aws:appmesh:us-east-1:A:mesh/m1/virtualService/vs1",
    CreatedAt := some createdAtFixture,
    LastUpdatedAt := some lastUpdatedAtFixture,
    MeshOwner := some "A",
    ResourceOwner := some "A" }

/-- The record of scenario 1: virtual service `vs1` of mesh `m1`, bound to the
virtual node `vn1`. -/
def recordFixture : VirtualServiceData :=
  { MeshName := some "m1",
    Metadata := some metadataFixture,
    Spec := some { Provider := some { VirtualNode := some (some "vn1"), VirtualRouter := none } },
    VirtualServiceName := some "vs1" }

/-- The caller's inputs of scenario 1: `mesh_name = "m1"`, `name = "vs1"`, no
`mesh_owner`; the id is unset. -/
def inputFixture : ResourceData :=
  { id := "",
    attrs := fun k =>
      if k = "mesh_name" then some (.str "m1")
      else if k = "name" then some (.str "vs1")
      else none }

/-- Modelled from the spec: `flattenVirtualServiceSpec` (flex.go is not among
the sources), §4.3: one `spec` block holding one `provider` block that carries
only the populated variant, named by one string.  Used by the fixtures only;
the theorems take the flattener as a field of `Client`. -/
def flattenFixture (spec : Option VirtualServiceSpec) : List SpecBlock :=
  match spec with
  | none => []
  | some sp =>
    match sp.Provider with
    | none => [{ provider := [] }]
    | some pr =>
      [{ provider :=
          [{ virtual_node := (pr.VirtualNode.map StringValue).toList,
             virtual_router := (pr.VirtualRouter.map StringValue).toList }] }]

/-- The client of scenario 1: caller account `A`, the resolver returns the
fixture record, the tag-list call returns `env` and a platform-managed tag, the
store takes every write. -/
def clientFixture : Client :=
  { AccountID := "A",
    IgnoreTagsConfig := some { Keys := ["owner"], KeyPrefixes := ["tmp-"] },
    findVirtualServiceByThreePartKey := fun _ _ _ => .ok (some recordFixture),
    listTags := fun _ => .ok [("env", "prod"), ("aws:internal", "x"), ("owner", "me")],
    flattenVirtualServiceSpec := flattenFixture,
    setError := fun _ _ => none }

/-- Scenario 6: as scenario 1, but the tag-list call is denied. -/
def clientTagsDenied : Client :=
  { clientFixture with listTags := fun _ => .error "AccessDeniedException" }

/-- Scenario 4: the resolver reports not-found. -/
def clientNotFound : Client :=
  { clientFixture with
    findVirtualServiceByThreePartKey := fun _ _ _ => .error "couldn't find resource" }

/-- As scenario 1, but the store rejects the write of `spec`. -/
def clientSpecRejected : Client :=
  { clientFixture with
    setError := fun k _ => if k = "spec" then some "spec: schema mismatch" else none }

/-- As scenario 1, but the store rejects the write of `tags`. -/
def clientTagsRejected : Client :=
  { clientFixture with
    setError := fun k _ => if k = "tags" then some "tags: schema mismatch" else none }

/-- As scenario 1, but the store rejects the write of `arn`. -/
def clientArnRejected : Client :=
  { clientFixture with
    setError := fun k _ => if k = "arn" then some "arn: schema mismatch" else none }

/-- Scenario 2: the caller is account `B`, not the mesh owner `A`. -/
def clientCrossAccount : Client :=
  { clientFixture with AccountID := "B" }

/-- A record without metadata. -/
def recordNoMetadata : VirtualServiceData :=
  { recordFixture with Metadata := none }

/-- A client whose resolver returns the record without metadata. -/
def clientNoMetadata : Client :=
  { clientFixture with
    findVirtualServiceByThreePartKey := fun _ _ _ => .ok (some recordNoMetadata) }

/-- Metadata in which only the timestamps are present. -/
def metadataSparse : ResourceMetadata :=
  { Arn := none, CreatedAt := some createdAtFixture, LastUpdatedAt := some lastUpdatedAtFixture,
    MeshOwner := none, ResourceOwner := none }

/-- A record in which every field that may be absent is absent. -/
def recordSparse : VirtualServiceData :=
  { MeshName := none, Metadata := some metadataSparse, Spec := none, VirtualServiceName := none }

/-- A client whose resolver returns the sparse record. -/
def clientSparse : Client :=
  { clientFixture with
    findVirtualServiceByThreePartKey := fun _ _ _ => .ok (some recordSparse) }

/-- A record whose metadata lacks the update time. -/
def recordNoLastUpdated : VirtualServiceData :=
  { recordFixture with Metadata := some { metadataFixture with LastUpdatedAt := none } }

/-- A client whose resolver returns the record without update time; the store
takes every write and the tag-list call succeeds. -/
def clientNoLastUpdated : Client :=
  { clientFixture with
    findVirtualServiceByThreePartKey := fun _ _ _ => .ok (some recordNoLastUpdated) }

/-- A record whose metadata lacks the creation time. -/
def recordNoCreatedAt : VirtualServiceData :=
  { recordFixture with Metadata := some { metadataFixture with CreatedAt := none } }

/-- A client whose resolver returns the record without creation time. -/
def clientNoCreatedAt : Client :=
  { clientFixture with
    findVirtualServiceByThreePartKey := fun _ _ _ => .ok (some recordNoCreatedAt) }

/-- Scenario 6 with a store that also rejects the write of `arn`. -/
def clientTagsDeniedArnRejected : Client :=
  { clientTagsDenied with
    setError := fun k _ => if k = "arn" then some "arn: schema mismatch" else none }

/-- A client whose resolver returns the sparse record and whose store rejects
the write of `mesh_name`. -/
def clientSparseMeshNameRejected : Client :=
  { clientSparse with
    setError := fun k _ => if k = "mesh_name" then some "mesh_name: schema mismatch" else none }

/-! ## Basic facts about `Set` and `SetId` -/

@[simp] theorem Set_calls (c : Client) (s : State) (k : String) (v : AttrValue) :
    (Set c s k v).1.calls = s.calls ++ [Call.Set k v] := by
  unfold Set; split <;> rfl

@[simp] theorem Set_snd (c : Client) (s : State) (k : String) (v : AttrValue) :
    (Set c s k v).2 = c.setError k v := by
  unfold Set; split <;> simp_all

@[simp] theorem Set_id (c : Client) (s : State) (k : String) (v : AttrValue) :
    (Set c s k v).1.d.id = s.d.id := by
  unfold Set; split <;> rfl

theorem Set_attrs (c : Client) (s : State) (k : String) (v : AttrValue) (k' : String) :
    (Set c s k v).1.d.attrs k' =
      if k' = k ∧ c.setError k v = none then some v else s.d.attrs k' := by
  unfold Set; split <;> simp_all

@[simp] theorem Set_attrs_ne (c : Client) (s : State) (k : String) (v : AttrValue) (k' : String)
    (h : k' ≠ k) : (Set c s k v).1.d.attrs k' = s.d.attrs k' := by
  rw [Set_attrs]; simp [h]

@[simp] theorem Set_attrs_accept (c : Client) (s : State) (k : String) (v : AttrValue)
    (h : c.setError k v = none) : (Set c s k v).1.d.attrs k = some v := by
  rw [Set_attrs]; simp [h]

@[simp] theorem SetId_calls (s : State) (v : String) :
    (SetId s v).calls = s.calls ++ [Call.SetId v] := rfl

@[simp] theorem SetId_id (s : State) (v : String) : (SetId s v).d.id = v := rfl

@[simp] theorem SetId_attrs (s : State) (v : String) : (SetId s v).d.attrs = s.d.attrs := rfl

/-! ## The RFC 3339 rendering -/

theorem utod_isDigit (d : Nat) (h : d < 10) : (utod d).isDigit = true := by
  interval_cases d <;> decide

theorem appendInt_two (b : List Char) (n : Nat) (h : n < 100) :
    appendInt b (n : Int) 2 = b ++ [utod (n / 10), utod (n % 10)] := by
  simp [appendInt, h]

theorem appendInt_four (b : List Char) (y : Int) (h0 : 0 ≤ y) (h1 : y ≤ 9999) :
    appendInt b y 4 = b ++ [utod (y.natAbs / 1000), utod (y.natAbs / 100 % 10),
      utod (y.natAbs / 10 % 10), utod (y.natAbs % 10)] := by
  have h2 : y.natAbs < 10000 := by omega
  have h3 : ¬ y < 0 := by omega
  simp [appendInt, h2, h3]

/-- An offset of less than a day is less than 1440 minutes. -/
theorem zone_lt (o : Int) (h1 : -86400 < o) (h2 : o < 86400) : (o.tdiv 60).natAbs < 1440 := by
  rw [Int.natAbs_tdiv]
  have h : o.natAbs < 86400 := by omega
  show o.natAbs / 60 < 1440
  omega

/-- The date and clock part of the rendering, for a timestamp in range. -/
theorem dateTime_eq (t : Time) (h : t.InRange) :
    appendInt (appendInt (appendInt (appendInt (appendInt (appendInt [] t.year 4 ++ ['-'])
      t.month 2 ++ ['-']) t.day 2 ++ ['T']) t.hour 2 ++ [':']) t.min 2 ++ [':']) t.sec 2 =
    [utod (t.year.natAbs / 1000), utod (t.year.natAbs / 100 % 10),
      utod (t.year.natAbs / 10 % 10), utod (t.year.natAbs % 10), '-',
      utod (t.month / 10), utod (t.month % 10), '-', utod (t.day / 10), utod (t.day % 10), 'T',
      utod (t.hour / 10), utod (t.hour % 10), ':', utod (t.min / 10), utod (t.min % 10), ':',
      utod (t.sec / 10), utod (t.sec % 10)] := by
  obtain ⟨h1, h2, h3, h4, h5, h6, h7, h8, h9, -, -⟩ := h
  rw [appendInt_four _ _ h1 h2, appendInt_two _ _ (by omega), appendInt_two _ _ (by omega),
    appendInt_two _ _ (by omega), appendInt_two _ _ (by omega), appendInt_two _ _ (by omega)]
  simp

/-- The rendering of a timestamp in range with a zero offset: date, clock, `Z`. -/
theorem appendFormatRFC3339_utc (t : Time) (h : t.InRange) (h0 : t.offset = 0) :
    appendFormatRFC3339 t =
    [utod (t.year.natAbs / 1000), utod (t.year.natAbs / 100 % 10),
      utod (t.year.natAbs / 10 % 10), utod (t.year.natAbs % 10), '-',
      utod (t.month / 10), utod (t.month % 10), '-', utod (t.day / 10), utod (t.day % 10), 'T',
      utod (t.hour / 10), utod (t.hour % 10), ':', utod (t.min / 10), utod (t.min % 10), ':',
      utod (t.sec / 10), utod (t.sec % 10), 'Z'] := by
  unfold appendFormatRFC3339
  simp only [h0, if_true]
  rw [dateTime_eq t h]
  simp

/-- The rendering of a timestamp in range with a nonzero offset: date, clock,
sign, hours, colon, minutes. -/
theorem appendFormatRFC3339_zone (t : Time) (h : t.InRange) (h0 : t.offset ≠ 0) :
    appendFormatRFC3339 t =
    [utod (t.year.natAbs / 1000), utod (t.year.natAbs / 100 % 10),
      utod (t.year.natAbs / 10 % 10), utod (t.year.natAbs % 10), '-',
      utod (t.month / 10), utod (t.month % 10), '-', utod (t.day / 10), utod (t.day % 10), 'T',
      utod (t.hour / 10), utod (t.hour % 10), ':', utod (t.min / 10), utod (t.min % 10), ':',
      utod (t.sec / 10), utod (t.sec % 10),
      if t.offset.tdiv 60 < 0 then '-' else '+',
      utod ((t.offset.tdiv 60).natAbs / 60 / 10), utod ((t.offset.tdiv 60).natAbs / 60 % 10), ':',
      utod ((t.offset.tdiv 60).natAbs % 60 / 10), utod ((t.offset.tdiv 60).natAbs % 60 % 10)] := by
  have hz : (t.offset.tdiv 60).natAbs < 1440 := zone_lt t.offset h.2.2.2.2.2.2.2.2.2.1 h.2.2.2.2.2.2.2.2.2.2
  unfold appendFormatRFC3339
  simp only [h0, if_false]
  rw [dateTime_eq t h, appendInt_two _ _ (by omega), appendInt_two _ _ (by omega)]
  split <;> simp

/-- The rendering does not show the nanoseconds. -/
theorem Format_RFC3339_nsec (t : Time) (n : Nat) :
    ({ t with nsec := n } : Time).Format_RFC3339 = t.Format_RFC3339 := rfl

/-- A timestamp in range renders as RFC 3339 to the second: with a zero offset
the text ends in `Z` and not in a numeric offset, with a nonzero offset it ends
in a numeric offset. -/
theorem Format_RFC3339_shape (t : Time) (h : t.InRange) :
    isRFC3339Seconds t.Format_RFC3339 = true ∧
      (t.offset = 0 → t.Format_RFC3339.data.getLast? = some 'Z' ∧
        endsInNumericOffset t.Format_RFC3339 = false) ∧
      (t.offset ≠ 0 → endsInNumericOffset t.Format_RFC3339 = true) := by
  have hd := h
  obtain ⟨h1, h2, h3, h4, h5, h6, h7, h8, h9, h10, h11⟩ := hd
  have hy : t.year.natAbs < 10000 := by omega
  have hz : (t.offset.tdiv 60).natAbs < 1440 := zone_lt t.offset h10 h11
  have hZ : ('Z' : Char).isDigit = false := by decide
  have d1 := utod_isDigit (t.year.natAbs / 1000) (by omega)
  have d2 := utod_isDigit (t.year.natAbs / 100 % 10) (by omega)
  have d3 := utod_isDigit (t.year.natAbs / 10 % 10) (by omega)
  have d4 := utod_isDigit (t.year.natAbs % 10) (by omega)
  have d5 := utod_isDigit (t.month / 10) (by omega)
  have d6 := utod_isDigit (t.month % 10) (by omega)
  have d7 := utod_isDigit (t.day / 10) (by omega)
  have d8 := utod_isDigit (t.day % 10) (by omega)
  have d9 := utod_isDigit (t.hour / 10) (by omega)
  have d10 := utod_isDigit (t.hour % 10) (by omega)
  have d11 := utod_isDigit (t.min / 10) (by omega)
  have d12 := utod_isDigit (t.min % 10) (by omega)
  have d13 := utod_isDigit (t.sec / 10) (by omega)
  have d14 := utod_isDigit (t.sec % 10) (by omega)
  have z1 := utod_isDigit ((t.offset.tdiv 60).natAbs / 60 / 10) (by omega)
  have z2 := utod_isDigit ((t.offset.tdiv 60).natAbs / 60 % 10) (by omega)
  have z3 := utod_isDigit ((t.offset.tdiv 60).natAbs % 60 / 10) (by omega)
  have z4 := utod_isDigit ((t.offset.tdiv 60).natAbs % 60 % 10) (by omega)
  by_cases h0 : t.offset = 0
  · have e := appendFormatRFC3339_utc t h h0
    refine ⟨?_, fun _ => ⟨?_, ?_⟩, fun hne => absurd h0 hne⟩
    · simp only [isRFC3339Seconds, Time.Format_RFC3339, e]
      simp [isDateTimeSeconds, d1, d2, d3, d4, d5, d6, d7, d8, d9, d10, d11, d12, d13, d14]
    · simp [Time.Format_RFC3339, e]
    · simp [endsInNumericOffset, Time.Format_RFC3339, e, isNumericOffset, hZ]
  · have e := appendFormatRFC3339_zone t h h0
    generalize (t.offset.tdiv 60).natAbs = zn at e z1 z2 z3 z4
    refine ⟨?_, fun h0' => absurd h0' h0, fun _ => ?_⟩
    · simp only [isRFC3339Seconds, Time.Format_RFC3339, e]
      split <;>
        simp [isDateTimeSeconds, isNumericOffset, d1, d2, d3, d4, d5, d6, d7, d8, d9, d10, d11,
          d12, d13, d14, z1, z2, z3, z4]
    · simp only [endsInNumericOffset, Time.Format_RFC3339, e]
      split <;> simp [isNumericOffset, z1, z2, z3, z4]

/-! ## The resolver call -/

/-- States claim C4: when the resolver fails with `reason`, the read returns
exactly one error diagnostic, "reading App Mesh Virtual Service (<name>):
<reason>" with the caller-supplied name, leaves the store (id and attributes)
as it was, and issues no call other than the resolver call: no `SetId`, no
`Set`, no tag-list call. -/
theorem read_resolver_error (c : Client) (d : ResourceData) (reason : String)
    (hfind : c.findVirtualServiceByThreePartKey (d.GetString "mesh_name")
      (d.GetString "mesh_owner") (d.GetString "name") = .error reason) :
    (dataSourceVirtualServiceRead c d).outcome =
        .returned [{ severity := .Error,
                     summary := "reading App Mesh Virtual Service (" ++ d.GetString "name"
                       ++ "): " ++ reason }] ∧
      (dataSourceVirtualServiceRead c d).d.id = d.id ∧
      (dataSourceVirtualServiceRead c d).d.attrs = d.attrs ∧
      (dataSourceVirtualServiceRead c d).calls.filter Call.isWrite = [] ∧
      (dataSourceVirtualServiceRead c d).calls.filter Call.isListTags = [] := by
  simp [dataSourceVirtualServiceRead, hfind, AppendErrorf, Call.isWrite, Call.isListTags]

/-- States claim C5: the read calls the resolver exactly once, with the
caller-supplied mesh_name, mesh_owner and name as read from the store; an
omitted mesh_owner is passed as the empty string, whatever the caller's
account id is. -/
theorem read_resolver_call (c : Client) (d : ResourceData) :
    (dataSourceVirtualServiceRead c d).calls.filter Call.isFind =
        [Call.findVirtualServiceByThreePartKey (d.GetString "mesh_name")
          (d.GetString "mesh_owner") (d.GetString "name")] ∧
      (d.attrs "mesh_owner" = none →
        (dataSourceVirtualServiceRead c d).calls.filter Call.isFind =
          [Call.findVirtualServiceByThreePartKey (d.GetString "mesh_name") ""
            (d.GetString "name")]) := by
  have key : (dataSourceVirtualServiceRead c d).calls.filter Call.isFind =
        [Call.findVirtualServiceByThreePartKey (d.GetString "mesh_name")
          (d.GetString "mesh_owner") (d.GetString "name")] := by
    unfold dataSourceVirtualServiceRead readTags setTags
    simp only []
    repeat' split
    all_goals simp [Call.isFind, List.filter_append, List.filter_cons]
  refine ⟨key, fun h => ?_⟩
  rw [key]
  simp [ResourceData.GetString, h]

/-! ## The shape of a read that gets past the timestamps -/

/-- With metadata and timestamps present the read is: the eight writes of lines
75 to 84, the write of `spec`, and then either the "setting spec" error or the
tag step. -/
theorem read_of_present (c : Client) (d : ResourceData) (vs : VirtualServiceData)
    (md : ResourceMetadata) (createdAt lastUpdatedAt : Time)
    (hfind : c.findVirtualServiceByThreePartKey (d.GetString "mesh_name")
      (d.GetString "mesh_owner") (d.GetString "name") = .ok (some vs))
    (hmd : vs.Metadata = some md) (hc : md.CreatedAt = some createdAt)
    (hl : md.LastUpdatedAt = some lastUpdatedAt) :
    dataSourceVirtualServiceRead c d =
      match c.setError "spec" (.blocks (c.flattenVirtualServiceSpec vs.Spec)) with
      | some err =>
        ⟨.returned [{ severity := .Error, summary := "setting spec: " ++ err }],
          (afterSpec c d vs md createdAt lastUpdatedAt).d,
          (afterSpec c d vs md createdAt lastUpdatedAt).calls⟩
      | none =>
        readTags c [] (afterSpec c d vs md createdAt lastUpdatedAt)
          (StringValue md.Arn) (StringValue md.MeshOwner) := by
  unfold dataSourceVirtualServiceRead
  simp only [hfind, hmd, hc, hl, Set_snd]
  rfl

/-- The calls up to and including the write of `spec`. -/
theorem afterSpec_calls (c : Client) (d : ResourceData) (vs : VirtualServiceData)
    (md : ResourceMetadata) (createdAt lastUpdatedAt : Time) :
    (afterSpec c d vs md createdAt lastUpdatedAt).calls =
      [Call.findVirtualServiceByThreePartKey (d.GetString "mesh_name")
          (d.GetString "mesh_owner") (d.GetString "name"),
        Call.SetId (StringValue vs.VirtualServiceName),
        Call.Set "arn" (.str (StringValue md.Arn)),
        Call.Set "created_date" (.str createdAt.Format_RFC3339),
        Call.Set "last_updated_date" (.str lastUpdatedAt.Format_RFC3339),
        Call.Set "mesh_name" (ptrValue vs.MeshName),
        Call.Set "mesh_owner" (.str (StringValue md.MeshOwner)),
        Call.Set "name" (ptrValue vs.VirtualServiceName),
        Call.Set "resource_owner" (ptrValue md.ResourceOwner),
        Call.Set "spec" (.blocks (c.flattenVirtualServiceSpec vs.Spec))] := by
  simp [afterSpec, afterStrings]

/-- The id after the write of `spec`. -/
theorem afterSpec_id (c : Client) (d : ResourceData) (vs : VirtualServiceData)
    (md : ResourceMetadata) (createdAt lastUpdatedAt : Time) :
    (afterSpec c d vs md createdAt lastUpdatedAt).d.id = StringValue vs.VirtualServiceName := by
  simp [afterSpec, afterStrings]

/-- The tag step writes no attribute other than `tags` and leaves the id. -/
theorem readTags_attrs_ne (c : Client) (diags : List Diagnostic) (s : State)
    (arn meshOwner k : String) (hk : k ≠ "tags") :
    (readTags c diags s arn meshOwner).d.attrs k = s.d.attrs k ∧
      (readTags c diags s arn meshOwner).d.id = s.d.id := by
  unfold readTags setTags
  simp only []
  repeat' split
  all_goals simp [hk]

/-- The calls of the tag step: the tag-list call when the owner is the caller,
then the write of `tags` unless the tag-list call failed. -/
theorem readTags_calls (c : Client) (diags : List Diagnostic) (s : State)
    (arn meshOwner : String) :
    (readTags c diags s arn meshOwner).calls = s.calls ++
      (if meshOwner = c.AccountID then
        match c.listTags arn with
        | .error _ => [Call.listTags arn]
        | .ok tags =>
          [Call.listTags arn,
            Call.Set "tags" (.tagMap (KeyValueTags.Map
              (IgnoreConfigFilter (IgnoreAWS tags) c.IgnoreTagsConfig)))]
      else
        [Call.Set "tags" (.tagMap (KeyValueTags.Map
          (IgnoreConfigFilter (IgnoreAWS []) c.IgnoreTagsConfig)))]) := by
  unfold readTags setTags
  simp only []
  repeat' split
  all_goals simp_all

/-- The outcome of the tag step. -/
theorem readTags_outcome (c : Client) (diags : List Diagnostic) (s : State)
    (arn meshOwner : String) :
    (readTags c diags s arn meshOwner).outcome =
      (if meshOwner = c.AccountID then
        match c.listTags arn with
        | .error err =>
          .returned (AppendErrorf diags
            ("listing tags for App Mesh Virtual Service (" ++ arn ++ "): " ++ err))
        | .ok tags =>
          match c.setError "tags" (.tagMap (KeyValueTags.Map
              (IgnoreConfigFilter (IgnoreAWS tags) c.IgnoreTagsConfig))) with
          | some err => .returned (AppendErrorf diags ("setting tags: " ++ err))
          | none => .returned diags
      else
        match c.setError "tags" (.tagMap (KeyValueTags.Map
            (IgnoreConfigFilter (IgnoreAWS []) c.IgnoreTagsConfig))) with
        | some err => .returned (AppendErrorf diags ("setting tags: " ++ err))
        | none => .returned diags) := by
  unfold readTags setTags
  simp only [Set_snd]
  repeat' split
  all_goals simp_all

/-- The tag step returns; it never dereferences a nil pointer. -/
theorem readTags_returns (c : Client) (diags : List Diagnostic) (s : State)
    (arn meshOwner : String) :
    ∃ ds, (readTags c diags s arn meshOwner).outcome = .returned ds := by
  unfold readTags setTags
  simp only []
  repeat' split
  all_goals exact ⟨_, rfl⟩

/-- With metadata and timestamps present, the read leaves the id and every
attribute other than `tags` as they are after the write of `spec`. -/
theorem read_store_of_present (c : Client) (d : ResourceData) (vs : VirtualServiceData)
    (md : ResourceMetadata) (createdAt lastUpdatedAt : Time)
    (hfind : c.findVirtualServiceByThreePartKey (d.GetString "mesh_name")
      (d.GetString "mesh_owner") (d.GetString "name") = .ok (some vs))
    (hmd : vs.Metadata = some md) (hc : md.CreatedAt = some createdAt)
    (hl : md.LastUpdatedAt = some lastUpdatedAt) :
    (dataSourceVirtualServiceRead c d).d.id = StringValue vs.VirtualServiceName ∧
      ∀ k, k ≠ "tags" → (dataSourceVirtualServiceRead c d).d.attrs k =
        (afterSpec c d vs md createdAt lastUpdatedAt).d.attrs k := by
  rw [read_of_present c d vs md createdAt lastUpdatedAt hfind hmd hc hl]
  split
  · exact ⟨afterSpec_id .., fun _ _ => rfl⟩
  · exact ⟨(readTags_attrs_ne c [] _ _ _ "arn" (by decide)).2.trans (afterSpec_id ..),
      fun k hk => (readTags_attrs_ne c [] _ _ _ k hk).1⟩

/-- With metadata and timestamps present, the calls of the read are those up to
the write of `spec`, followed by tag-list calls and writes of `tags` only. -/
theorem read_calls_of_present (c : Client) (d : ResourceData) (vs : VirtualServiceData)
    (md : ResourceMetadata) (createdAt lastUpdatedAt : Time)
    (hfind : c.findVirtualServiceByThreePartKey (d.GetString "mesh_name")
      (d.GetString "mesh_owner") (d.GetString "name") = .ok (some vs))
    (hmd : vs.Metadata = some md) (hc : md.CreatedAt = some createdAt)
    (hl : md.LastUpdatedAt = some lastUpdatedAt) :
    ∃ rest, (dataSourceVirtualServiceRead c d).calls =
        (afterSpec c d vs md createdAt lastUpdatedAt).calls ++ rest ∧
      ∀ x ∈ rest, x = Call.listTags (StringValue md.Arn) ∨ ∃ v, x = Call.Set "tags" v := by
  rw [read_of_present c d vs md createdAt lastUpdatedAt hfind hmd hc hl]
  split
  · exact ⟨[], by simp, by simp⟩
  · rw [readTags_calls]
    refine ⟨_, rfl, ?_⟩
    repeat' split
    all_goals simp

/-- The filters leave the empty tag set empty. -/
theorem filters_nil (config : Option IgnoreConfig) :
    KeyValueTags.Map (IgnoreConfigFilter (IgnoreAWS []) config) = [] := by
  cases config <;> rfl

/-! ## The tag gate -/

/-- States claim C1 as amended: for a record the resolver returns whose metadata
and timestamps are present and whose `spec` write the store accepts, the read
issues a tag-list call if and only if the record's mesh owner is the caller's
account; when they differ no tag-list call is issued and a successful read has
written the empty mapping to `tags`; when they are equal exactly one tag-list
call is issued, for the record's ARN. -/
theorem read_tag_gate (c : Client) (d : ResourceData) (vs : VirtualServiceData)
    (md : ResourceMetadata) (createdAt lastUpdatedAt : Time)
    (hfind : c.findVirtualServiceByThreePartKey (d.GetString "mesh_name")
      (d.GetString "mesh_owner") (d.GetString "name") = .ok (some vs))
    (hmd : vs.Metadata = some md) (hc : md.CreatedAt = some createdAt)
    (hl : md.LastUpdatedAt = some lastUpdatedAt)
    (hspec : c.setError "spec" (.blocks (c.flattenVirtualServiceSpec vs.Spec)) = none) :
    ((dataSourceVirtualServiceRead c d).calls.filter Call.isListTags ≠ [] ↔
        StringValue md.MeshOwner = c.AccountID) ∧
      (StringValue md.MeshOwner ≠ c.AccountID →
        (dataSourceVirtualServiceRead c d).calls.filter Call.isListTags = [] ∧
        ((dataSourceVirtualServiceRead c d).outcome = .returned [] →
          (dataSourceVirtualServiceRead c d).d.attrs "tags" = some (.tagMap []))) ∧
      (StringValue md.MeshOwner = c.AccountID →
        (dataSourceVirtualServiceRead c d).calls.filter Call.isListTags =
          [Call.listTags (StringValue md.Arn)]) := by
  have hne : StringValue md.MeshOwner ≠ c.AccountID →
      (dataSourceVirtualServiceRead c d).calls.filter Call.isListTags = [] ∧
      ((dataSourceVirtualServiceRead c d).outcome = .returned [] →
        (dataSourceVirtualServiceRead c d).d.attrs "tags" = some (.tagMap [])) := by
    intro hown
    rw [read_of_present c d vs md createdAt lastUpdatedAt hfind hmd hc hl, hspec]
    simp only []
    refine ⟨?_, ?_⟩
    · rw [readTags_calls, afterSpec_calls]
      simp [hown, Call.isListTags]
    · simp only [readTags, setTags, hown, if_false, Set_snd, filters_nil]
      split
      · simp [AppendErrorf]
      · rename_i hacc
        intro _
        exact Set_attrs_accept _ _ _ _ hacc
  have heq : StringValue md.MeshOwner = c.AccountID →
      (dataSourceVirtualServiceRead c d).calls.filter Call.isListTags =
        [Call.listTags (StringValue md.Arn)] := by
    intro hown
    rw [read_of_present c d vs md createdAt lastUpdatedAt hfind hmd hc hl, hspec]
    simp only []
    rw [readTags_calls, afterSpec_calls]
    simp only [hown, if_true]
    split <;> simp [Call.isListTags]
  refine ⟨⟨fun h => ?_, fun h => ?_⟩, hne, heq⟩
  · by_contra hown
    exact h (hne hown).1
  · rw [heq h]; simp

/-- Refutes claim C1 as stated: Describe succeeds with a record whose mesh owner
is the caller's account, the store rejects the write of `spec`, and the read
returns the "setting spec" error without any tag-list call. -/
theorem read_tag_gate_spec_rejected :
    clientSpecRejected.findVirtualServiceByThreePartKey (inputFixture.GetString "mesh_name")
        (inputFixture.GetString "mesh_owner") (inputFixture.GetString "name") =
        .ok (some recordFixture) ∧
      StringValue metadataFixture.MeshOwner = clientSpecRejected.AccountID ∧
      (dataSourceVirtualServiceRead clientSpecRejected inputFixture).outcome =
        .returned [{ severity := .Error, summary := "setting spec: spec: schema mismatch" }] ∧
      (dataSourceVirtualServiceRead clientSpecRejected inputFixture).calls.filter
        Call.isListTags = [] := by
  refine ⟨rfl, rfl, ?_, ?_⟩ <;> decide

/-- Witness of `read_tag_gate`: scenario 1, where the caller owns the mesh. -/
theorem read_tag_gate_witness :
    (clientFixture.findVirtualServiceByThreePartKey (inputFixture.GetString "mesh_name")
        (inputFixture.GetString "mesh_owner") (inputFixture.GetString "name") =
        .ok (some recordFixture) ∧
      recordFixture.Metadata = some metadataFixture ∧
      metadataFixture.CreatedAt = some createdAtFixture ∧
      metadataFixture.LastUpdatedAt = some lastUpdatedAtFixture ∧
      clientFixture.setError "spec"
        (.blocks (clientFixture.flattenVirtualServiceSpec recordFixture.Spec)) = none) ∧
      (dataSourceVirtualServiceRead clientFixture inputFixture).calls.filter Call.isListTags =
        [Call.listTags "arn:aws:appmesh:us-east-1:A:mesh/m1/virtualService/vs1"] :=
  ⟨⟨rfl, rfl, rfl, rfl, rfl⟩,
    (read_tag_gate clientFixture inputFixture recordFixture metadataFixture createdAtFixture
      lastUpdatedAtFixture rfl rfl rfl rfl rfl).2.2 rfl⟩

/-! ## The projection of the record -/

/-- States claim C2 as amended: for a record the resolver returns whose
metadata and both timestamps are present, such that the store accepts each of
the writes the read makes and the tag-list call, when made, succeeds with
`tags` (`tags` is empty when the call is skipped), the read returns no
diagnostics and the store holds id = VirtualServiceName, name =
VirtualServiceName (so `name` reads back as the id), arn, the RFC 3339
renderings of CreatedAt and LastUpdatedAt, mesh_name, mesh_owner =
Metadata.MeshOwner whatever the caller supplied, resource_owner, spec = the
flattening of Spec, and the filtered tags. -/
theorem read_projects_record (c : Client) (d : ResourceData) (vs : VirtualServiceData)
    (md : ResourceMetadata) (createdAt lastUpdatedAt : Time) (tags : KeyValueTags)
    (hfind : c.findVirtualServiceByThreePartKey (d.GetString "mesh_name")
      (d.GetString "mesh_owner") (d.GetString "name") = .ok (some vs))
    (hmd : vs.Metadata = some md) (hc : md.CreatedAt = some createdAt)
    (hl : md.LastUpdatedAt = some lastUpdatedAt)
    (harn : c.setError "arn" (.str (StringValue md.Arn)) = none)
    (hcreated : c.setError "created_date" (.str createdAt.Format_RFC3339) = none)
    (hupdated : c.setError "last_updated_date" (.str lastUpdatedAt.Format_RFC3339) = none)
    (hmeshName : c.setError "mesh_name" (ptrValue vs.MeshName) = none)
    (hmeshOwner : c.setError "mesh_owner" (.str (StringValue md.MeshOwner)) = none)
    (hname : c.setError "name" (ptrValue vs.VirtualServiceName) = none)
    (howner : c.setError "resource_owner" (ptrValue md.ResourceOwner) = none)
    (hspec : c.setError "spec" (.blocks (c.flattenVirtualServiceSpec vs.Spec)) = none)
    (hfetch : (StringValue md.MeshOwner = c.AccountID ∧
        c.listTags (StringValue md.Arn) = .ok tags) ∨
      (StringValue md.MeshOwner ≠ c.AccountID ∧ tags = []))
    (htags : c.setError "tags" (.tagMap (KeyValueTags.Map
      (IgnoreConfigFilter (IgnoreAWS tags) c.IgnoreTagsConfig))) = none) :
    (dataSourceVirtualServiceRead c d).outcome = .returned [] ∧
      (dataSourceVirtualServiceRead c d).d.id =
        (match vs.VirtualServiceName with
          | some s => s
          | none => "") ∧
      (dataSourceVirtualServiceRead c d).d.attrs "name" =
        some (match vs.VirtualServiceName with
          | some s => AttrValue.str s
          | none => AttrValue.null) ∧
      (dataSourceVirtualServiceRead c d).d.GetString "name" =
        (dataSourceVirtualServiceRead c d).d.id ∧
      (dataSourceVirtualServiceRead c d).d.attrs "arn" =
        some (.str (match md.Arn with
          | some s => s
          | none => "")) ∧
      (dataSourceVirtualServiceRead c d).d.attrs "created_date" =
        some (.str createdAt.Format_RFC3339) ∧
      (dataSourceVirtualServiceRead c d).d.attrs "last_updated_date" =
        some (.str lastUpdatedAt.Format_RFC3339) ∧
      (dataSourceVirtualServiceRead c d).d.attrs "mesh_name" =
        some (match vs.MeshName with
          | some s => AttrValue.str s
          | none => AttrValue.null) ∧
      (dataSourceVirtualServiceRead c d).d.attrs "mesh_owner" =
        some (.str (match md.MeshOwner with
          | some s => s
          | none => "")) ∧
      (dataSourceVirtualServiceRead c d).d.attrs "resource_owner" =
        some (match md.ResourceOwner with
          | some s => AttrValue.str s
          | none => AttrValue.null) ∧
      (dataSourceVirtualServiceRead c d).d.attrs "spec" =
        some (.blocks (c.flattenVirtualServiceSpec vs.Spec)) ∧
      (dataSourceVirtualServiceRead c d).d.attrs "tags" =
        some (.tagMap (KeyValueTags.Map
          (IgnoreConfigFilter (IgnoreAWS tags) c.IgnoreTagsConfig))) := by
  obtain ⟨hid, hattr⟩ := read_store_of_present c d vs md createdAt lastUpdatedAt hfind hmd hc hl
  have hrun := read_of_present c d vs md createdAt lastUpdatedAt hfind hmd hc hl
  rw [hspec] at hrun
  simp only [] at hrun
  have hout : (dataSourceVirtualServiceRead c d).outcome = .returned [] := by
    rw [hrun, readTags_outcome]
    rcases hfetch with ⟨hown, hlist⟩ | ⟨hown, rfl⟩
    · simp [hown, hlist, htags]
    · simp [hown, htags]
  have htagsAttr : (dataSourceVirtualServiceRead c d).d.attrs "tags" =
      some (.tagMap (KeyValueTags.Map
        (IgnoreConfigFilter (IgnoreAWS tags) c.IgnoreTagsConfig))) := by
    rw [hrun]
    rcases hfetch with ⟨hown, hlist⟩ | ⟨hown, rfl⟩
    · simp only [readTags, setTags, hown, if_true, hlist, Set_snd, htags]
      exact Set_attrs_accept _ _ _ _ htags
    · simp only [readTags, setTags, hown, if_false, Set_snd, htags]
      exact Set_attrs_accept _ _ _ _ htags
  have hnameAttr : (dataSourceVirtualServiceRead c d).d.attrs "name" =
      some (ptrValue vs.VirtualServiceName) := by
    rw [hattr _ (by decide)]; simp [afterSpec, afterStrings, Set_attrs, hname]
  refine ⟨hout, ?_, ?_, ?_, ?_, ?_, ?_, ?_, ?_, ?_, ?_, htagsAttr⟩
  · rw [hid]; cases vs.VirtualServiceName <;> rfl
  · rw [hnameAttr]; cases vs.VirtualServiceName <;> rfl
  · rw [hid, ResourceData.GetString, hnameAttr]
    cases vs.VirtualServiceName <;> rfl
  · rw [hattr _ (by decide)]
    simp only [afterSpec, afterStrings, Set_attrs]
    simp [harn]
    cases md.Arn <;> rfl
  · rw [hattr _ (by decide)]; simp [afterSpec, afterStrings, Set_attrs, hcreated]
  · rw [hattr _ (by decide)]; simp [afterSpec, afterStrings, Set_attrs, hupdated]
  · rw [hattr _ (by decide)]
    simp only [afterSpec, afterStrings, Set_attrs]
    simp [hmeshName]
    cases vs.MeshName <;> rfl
  · rw [hattr _ (by decide)]
    simp only [afterSpec, afterStrings, Set_attrs]
    simp [hmeshOwner]
    cases md.MeshOwner <;> rfl
  · rw [hattr _ (by decide)]
    simp only [afterSpec, afterStrings, Set_attrs]
    simp [howner]
    cases md.ResourceOwner <;> rfl
  · rw [hattr _ (by decide)]; simp [afterSpec, afterStrings, Set_attrs, hspec]

/-- Refutes claim C2 as stated: the resolver returns a record without
`LastUpdatedAt`, the store takes every write and the tag-list call would
succeed, yet the read does not return: it dereferences the nil timestamp on
line 79, after writing `created_date` and before any other write. -/
theorem read_projects_record_no_timestamp :
    clientNoLastUpdated.findVirtualServiceByThreePartKey (inputFixture.GetString "mesh_name")
        (inputFixture.GetString "mesh_owner") (inputFixture.GetString "name") =
        .ok (some recordNoLastUpdated) ∧
      (∀ k v, clientNoLastUpdated.setError k v = none) ∧
      (∃ tags, clientNoLastUpdated.listTags
        "arn:aws:appmesh:us-east-1:A:mesh/m1/virtualService/vs1" = .ok tags) ∧
      (dataSourceVirtualServiceRead clientNoLastUpdated inputFixture).outcome =
        .nilDereference ∧
      (dataSourceVirtualServiceRead clientNoLastUpdated inputFixture).d.attrs
        "last_updated_date" = none ∧
      (dataSourceVirtualServiceRead clientNoLastUpdated inputFixture).d.attrs
        "resource_owner" = none := by
  refine ⟨rfl, fun _ _ => rfl, ⟨_, rfl⟩, ?_, ?_, ?_⟩ <;> decide

/-- Witness of `read_projects_record`: scenario 1. -/
theorem read_projects_record_witness :
    (clientFixture.findVirtualServiceByThreePartKey (inputFixture.GetString "mesh_name")
        (inputFixture.GetString "mesh_owner") (inputFixture.GetString "name") =
        .ok (some recordFixture) ∧
      recordFixture.Metadata = some metadataFixture ∧
      metadataFixture.CreatedAt = some createdAtFixture ∧
      metadataFixture.LastUpdatedAt = some lastUpdatedAtFixture ∧
      clientFixture.setError "arn" (.str (StringValue metadataFixture.Arn)) = none ∧
      clientFixture.setError "created_date" (.str createdAtFixture.Format_RFC3339) = none ∧
      clientFixture.setError "last_updated_date"
        (.str lastUpdatedAtFixture.Format_RFC3339) = none ∧
      clientFixture.setError "mesh_name" (ptrValue recordFixture.MeshName) = none ∧
      clientFixture.setError "mesh_owner" (.str (StringValue metadataFixture.MeshOwner)) = none ∧
      clientFixture.setError "name" (ptrValue recordFixture.VirtualServiceName) = none ∧
      clientFixture.setError "resource_owner" (ptrValue metadataFixture.ResourceOwner) = none ∧
      clientFixture.setError "spec"
        (.blocks (clientFixture.flattenVirtualServiceSpec recordFixture.Spec)) = none ∧
      ((StringValue metadataFixture.MeshOwner = clientFixture.AccountID ∧
          clientFixture.listTags (StringValue metadataFixture.Arn) =
            .ok [("env", "prod"), ("aws:internal", "x"), ("owner", "me")]) ∨
        (StringValue metadataFixture.MeshOwner ≠ clientFixture.AccountID ∧
          [("env", "prod"), ("aws:internal", "x"), ("owner", "me")] = [])) ∧
      clientFixture.setError "tags" (.tagMap (KeyValueTags.Map
        (IgnoreConfigFilter (IgnoreAWS [("env", "prod"), ("aws:internal", "x"), ("owner", "me")])
          clientFixture.IgnoreTagsConfig))) = none) ∧
      (dataSourceVirtualServiceRead clientFixture inputFixture).outcome = .returned [] ∧
      (dataSourceVirtualServiceRead clientFixture inputFixture).d.id = "vs1" ∧
      (dataSourceVirtualServiceRead clientFixture inputFixture).d.attrs "name" =
        some (.str "vs1") ∧
      (dataSourceVirtualServiceRead clientFixture inputFixture).d.attrs "mesh_name" =
        some (.str "m1") ∧
      (dataSourceVirtualServiceRead clientFixture inputFixture).d.attrs "resource_owner" =
        some (.str "A") :=
  have h := read_projects_record clientFixture inputFixture recordFixture metadataFixture
    createdAtFixture lastUpdatedAtFixture [("env", "prod"), ("aws:internal", "x"), ("owner", "me")]
    rfl rfl rfl rfl rfl rfl rfl rfl rfl rfl rfl rfl (Or.inl ⟨rfl, rfl⟩) rfl
  ⟨⟨rfl, rfl, rfl, rfl, rfl, rfl, rfl, rfl, rfl, rfl, rfl, rfl, Or.inl ⟨rfl, rfl⟩, rfl⟩,
    h.1, h.2.1, h.2.2.1, h.2.2.2.2.2.2.2.1, h.2.2.2.2.2.2.2.2.2.1⟩

/-- Witness of `read_resolver_error`: scenario 4, the resolver reports
not-found for `vs1`. -/
theorem read_resolver_error_witness :
    clientNotFound.findVirtualServiceByThreePartKey (inputFixture.GetString "mesh_name")
        (inputFixture.GetString "mesh_owner") (inputFixture.GetString "name") =
        .error "couldn't find resource" ∧
      (dataSourceVirtualServiceRead clientNotFound inputFixture).outcome =
        .returned [{ severity := .Error,
                     summary := "reading App Mesh Virtual Service (" ++
                       inputFixture.GetString "name" ++ "): " ++ "couldn't find resource" }] ∧
      (dataSourceVirtualServiceRead clientNotFound inputFixture).d.id = inputFixture.id :=
  ⟨rfl,
    (read_resolver_error clientNotFound inputFixture "couldn't find resource" rfl).1,
    (read_resolver_error clientNotFound inputFixture "couldn't find resource" rfl).2.1⟩

/-! ## Failures after Describe -/

/-- States claim C8 as amended: for a record whose mesh owner is the caller's
account, when the tag-list call is made (metadata and timestamps present, `spec`
written) and fails with `reason`, the read returns exactly one error diagnostic,
"listing tags for App Mesh Virtual Service (<arn>): <reason>" with the record's
ARN; `tags` is not written; the id is the record's name and `spec` holds the
flattened spec; each of arn, created_date, last_updated_date, mesh_name,
mesh_owner, name and resource_owner holds the record's value if the store took
its write and is as it was before the read if the store rejected it. -/
theorem read_listTags_error (c : Client) (d : ResourceData) (vs : VirtualServiceData)
    (md : ResourceMetadata) (createdAt lastUpdatedAt : Time) (reason : String)
    (hfind : c.findVirtualServiceByThreePartKey (d.GetString "mesh_name")
      (d.GetString "mesh_owner") (d.GetString "name") = .ok (some vs))
    (hmd : vs.Metadata = some md) (hc : md.CreatedAt = some createdAt)
    (hl : md.LastUpdatedAt = some lastUpdatedAt)
    (hspec : c.setError "spec" (.blocks (c.flattenVirtualServiceSpec vs.Spec)) = none)
    (hown : StringValue md.MeshOwner = c.AccountID)
    (hlist : c.listTags (StringValue md.Arn) = .error reason) :
    (dataSourceVirtualServiceRead c d).outcome =
        .returned [{ severity := .Error,
                     summary := "listing tags for App Mesh Virtual Service (" ++
                       (match md.Arn with
                        | some s => s
                        | none => "") ++ "): " ++ reason }] ∧
      (dataSourceVirtualServiceRead c d).calls.filter (Call.isSetOf "tags") = [] ∧
      (dataSourceVirtualServiceRead c d).d.attrs "tags" = d.attrs "tags" ∧
      (dataSourceVirtualServiceRead c d).d.id =
        (match vs.VirtualServiceName with
          | some s => s
          | none => "") ∧
      (dataSourceVirtualServiceRead c d).d.attrs "spec" =
        some (.blocks (c.flattenVirtualServiceSpec vs.Spec)) ∧
      (dataSourceVirtualServiceRead c d).d.attrs "arn" =
        (if c.setError "arn" (.str (StringValue md.Arn)) = none then
          some (.str (match md.Arn with
            | some s => s
            | none => ""))
        else d.attrs "arn") ∧
      (dataSourceVirtualServiceRead c d).d.attrs "created_date" =
        (if c.setError "created_date" (.str createdAt.Format_RFC3339) = none then
          some (.str createdAt.Format_RFC3339)
        else d.attrs "created_date") ∧
      (dataSourceVirtualServiceRead c d).d.attrs "last_updated_date" =
        (if c.setError "last_updated_date" (.str lastUpdatedAt.Format_RFC3339) = none then
          some (.str lastUpdatedAt.Format_RFC3339)
        else d.attrs "last_updated_date") ∧
      (dataSourceVirtualServiceRead c d).d.attrs "mesh_name" =
        (if c.setError "mesh_name" (ptrValue vs.MeshName) = none then
          some (match vs.MeshName with
            | some s => AttrValue.str s
            | none => AttrValue.null)
        else d.attrs "mesh_name") ∧
      (dataSourceVirtualServiceRead c d).d.attrs "mesh_owner" =
        (if c.setError "mesh_owner" (.str (StringValue md.MeshOwner)) = none then
          some (.str (match md.MeshOwner with
            | some s => s
            | none => ""))
        else d.attrs "mesh_owner") ∧
      (dataSourceVirtualServiceRead c d).d.attrs "name" =
        (if c.setError "name" (ptrValue vs.VirtualServiceName) = none then
          some (match vs.VirtualServiceName with
            | some s => AttrValue.str s
            | none => AttrValue.null)
        else d.attrs "name") ∧
      (dataSourceVirtualServiceRead c d).d.attrs "resource_owner" =
        (if c.setError "resource_owner" (ptrValue md.ResourceOwner) = none then
          some (match md.ResourceOwner with
            | some s => AttrValue.str s
            | none => AttrValue.null)
        else d.attrs "resource_owner") := by
  obtain ⟨hid, hattr⟩ := read_store_of_present c d vs md createdAt lastUpdatedAt hfind hmd hc hl
  have hrun := read_of_present c d vs md createdAt lastUpdatedAt hfind hmd hc hl
  rw [hspec] at hrun
  simp only [readTags, hown, if_true, hlist, AppendErrorf, List.nil_append] at hrun
  have hsv : ∀ p : Option String, StringValue p =
      (match p with
        | some s => s
        | none => "") := fun p => by cases p <;> rfl
  have hpv : ∀ p : Option String, ptrValue p =
      (match p with
        | some s => AttrValue.str s
        | none => AttrValue.null) := fun p => by cases p <;> rfl
  refine ⟨?_, ?_, ?_, ?_, ?_, ?_, ?_, ?_, ?_, ?_, ?_, ?_⟩
  · rw [hrun, ← hsv]
  · rw [hrun]
    simp only [afterSpec_calls]
    simp [Call.isSetOf]
  · rw [hrun]
    simp [afterSpec, afterStrings]
  · rw [hid, hsv]
  · rw [hattr _ (by decide)]; simp [afterSpec, afterStrings, Set_attrs, hspec]
  · rw [hattr _ (by decide), ← hsv]
    simp [afterSpec, afterStrings, Set_attrs]
  · rw [hattr _ (by decide)]
    simp [afterSpec, afterStrings, Set_attrs]
  · rw [hattr _ (by decide)]
    simp [afterSpec, afterStrings, Set_attrs]
  · rw [hattr _ (by decide), ← hpv]
    simp [afterSpec, afterStrings, Set_attrs]
  · rw [hattr _ (by decide), ← hsv]
    simp [afterSpec, afterStrings, Set_attrs]
  · rw [hattr _ (by decide), ← hpv]
    simp [afterSpec, afterStrings, Set_attrs]
  · rw [hattr _ (by decide), ← hpv]
    simp [afterSpec, afterStrings, Set_attrs]

/-- Refutes claim C8 as stated: the record's mesh owner is the caller's account
and the tag-list call fails, but the store had rejected the write of `arn`
(line 77 does not look at the error), so `arn` is not set from the record. -/
theorem read_listTags_error_arn_rejected :
    clientTagsDeniedArnRejected.findVirtualServiceByThreePartKey
        (inputFixture.GetString "mesh_name") (inputFixture.GetString "mesh_owner")
        (inputFixture.GetString "name") = .ok (some recordFixture) ∧
      metadataFixture.MeshOwner = some clientTagsDeniedArnRejected.AccountID ∧
      metadataFixture.Arn = some "arn:aws:appmesh:us-east-1:A:mesh/m1/virtualService/vs1" ∧
      (dataSourceVirtualServiceRead clientTagsDeniedArnRejected inputFixture).outcome =
        .returned [{ severity := .Error,
                     summary := "listing tags for App Mesh Virtual Service " ++
                       "(arn:aws:appmesh:us-east-1:A:mesh/m1/virtualService/vs1): " ++
                       "AccessDeniedException" }] ∧
      (dataSourceVirtualServiceRead clientTagsDeniedArnRejected inputFixture).d.attrs "arn" =
        none := by
  refine ⟨rfl, rfl, rfl, ?_, ?_⟩ <;> decide

/-- Witness of `read_listTags_error`: scenario 6, the tag-list call is denied. -/
theorem read_listTags_error_witness :
    (clientTagsDenied.findVirtualServiceByThreePartKey (inputFixture.GetString "mesh_name")
        (inputFixture.GetString "mesh_owner") (inputFixture.GetString "name") =
        .ok (some recordFixture) ∧
      recordFixture.Metadata = some metadataFixture ∧
      metadataFixture.CreatedAt = some createdAtFixture ∧
      metadataFixture.LastUpdatedAt = some lastUpdatedAtFixture ∧
      clientTagsDenied.setError "spec"
        (.blocks (clientTagsDenied.flattenVirtualServiceSpec recordFixture.Spec)) = none ∧
      StringValue metadataFixture.MeshOwner = clientTagsDenied.AccountID ∧
      clientTagsDenied.listTags (StringValue metadataFixture.Arn) =
        .error "AccessDeniedException") ∧
      (dataSourceVirtualServiceRead clientTagsDenied inputFixture).outcome =
        .returned [{ severity := .Error,
                     summary := "listing tags for App Mesh Virtual Service " ++
                       "(arn:aws:appmesh:us-east-1:A:mesh/m1/virtualService/vs1): " ++
                       "AccessDeniedException" }] ∧
      (dataSourceVirtualServiceRead clientTagsDenied inputFixture).d.id = "vs1" ∧
      (dataSourceVirtualServiceRead clientTagsDenied inputFixture).d.attrs "arn" =
        some (.str "arn:aws:appmesh:us-east-1:A:mesh/m1/virtualService/vs1") ∧
      (dataSourceVirtualServiceRead clientTagsDenied inputFixture).d.attrs "mesh_name" =
        some (.str "m1") ∧
      (dataSourceVirtualServiceRead clientTagsDenied inputFixture).d.attrs "name" =
        some (.str "vs1") ∧
      (dataSourceVirtualServiceRead clientTagsDenied inputFixture).d.attrs "resource_owner" =
        some (.str "A") :=
  have h := read_listTags_error clientTagsDenied inputFixture recordFixture metadataFixture
    createdAtFixture lastUpdatedAtFixture "AccessDeniedException" rfl rfl rfl rfl rfl rfl rfl
  ⟨⟨rfl, rfl, rfl, rfl, rfl, rfl, rfl⟩,
    h.1.trans (by decide), h.2.2.2.1, h.2.2.2.2.2.1.trans (by decide),
    h.2.2.2.2.2.2.2.2.1.trans (by decide), h.2.2.2.2.2.2.2.2.2.2.1.trans (by decide),
    h.2.2.2.2.2.2.2.2.2.2.2.trans (by decide)⟩

/-- States claim C3 as amended: when the read returns an error because the
resolver failed, the id and every attribute are as they were before the read and
no write was issued; when the read returns an error after the resolver returned
a record (spec write, tag-list or tags write failure), `SetId` has already been
called and the id is the record's name. -/
theorem read_error_store (c : Client) (d : ResourceData) :
    (∀ reason, c.findVirtualServiceByThreePartKey (d.GetString "mesh_name")
        (d.GetString "mesh_owner") (d.GetString "name") = .error reason →
      (dataSourceVirtualServiceRead c d).outcome.isError = true ∧
      (dataSourceVirtualServiceRead c d).d.id = d.id ∧
      (dataSourceVirtualServiceRead c d).d.attrs = d.attrs ∧
      (dataSourceVirtualServiceRead c d).calls.filter Call.isWrite = []) ∧
    (∀ vs, c.findVirtualServiceByThreePartKey (d.GetString "mesh_name")
        (d.GetString "mesh_owner") (d.GetString "name") = .ok (some vs) →
      (dataSourceVirtualServiceRead c d).outcome.isError = true →
      (dataSourceVirtualServiceRead c d).d.id = StringValue vs.VirtualServiceName ∧
      Call.SetId (StringValue vs.VirtualServiceName) ∈
        (dataSourceVirtualServiceRead c d).calls) := by
  refine ⟨fun reason hfind => ?_, fun vs hfind herr => ?_⟩
  · simp [dataSourceVirtualServiceRead, hfind, AppendErrorf, Call.isWrite, Outcome.isError,
      hasError]
  · rcases hmd : vs.Metadata with _ | md
    · simp [dataSourceVirtualServiceRead, hfind, hmd, Outcome.isError] at herr
    rcases hc : md.CreatedAt with _ | createdAt
    · simp [dataSourceVirtualServiceRead, hfind, hmd, hc, Outcome.isError] at herr
    rcases hl : md.LastUpdatedAt with _ | lastUpdatedAt
    · simp [dataSourceVirtualServiceRead, hfind, hmd, hc, hl, Outcome.isError] at herr
    refine ⟨(read_store_of_present c d vs md createdAt lastUpdatedAt hfind hmd hc hl).1, ?_⟩
    obtain ⟨rest, hcalls, -⟩ :=
      read_calls_of_present c d vs md createdAt lastUpdatedAt hfind hmd hc hl
    rw [hcalls, afterSpec_calls]
    simp

/-- Refutes claim C3 as stated: in scenario 6 the read returns an error
diagnostic (the tag-list call is denied), yet the id is set to `vs1` and `arn`
is populated. -/
theorem read_error_store_tags_denied :
    (dataSourceVirtualServiceRead clientTagsDenied inputFixture).outcome.isError = true ∧
      inputFixture.id = "" ∧
      (dataSourceVirtualServiceRead clientTagsDenied inputFixture).d.id = "vs1" ∧
      inputFixture.attrs "arn" = none ∧
      (dataSourceVirtualServiceRead clientTagsDenied inputFixture).d.attrs "arn" =
        some (.str "arn:aws:appmesh:us-east-1:A:mesh/m1/virtualService/vs1") := by
  refine ⟨?_, ?_, ?_, ?_, ?_⟩ <;> decide

/-- Witness of `read_error_store`: scenario 6, an error after the resolver
returned the record. -/
theorem read_error_store_witness :
    (clientTagsDenied.findVirtualServiceByThreePartKey (inputFixture.GetString "mesh_name")
        (inputFixture.GetString "mesh_owner") (inputFixture.GetString "name") =
        .ok (some recordFixture) ∧
      (dataSourceVirtualServiceRead clientTagsDenied inputFixture).outcome.isError = true) ∧
      (dataSourceVirtualServiceRead clientTagsDenied inputFixture).d.id =
        StringValue recordFixture.VirtualServiceName ∧
      Call.SetId (StringValue recordFixture.VirtualServiceName) ∈
        (dataSourceVirtualServiceRead clientTagsDenied inputFixture).calls :=
  ⟨⟨rfl, by decide⟩,
    (read_error_store clientTagsDenied inputFixture).2 recordFixture rfl (by decide)⟩

/-! ## Rejected writes -/

/-- The store's verdicts on the string attributes do not show in the outcome or
in the calls of the read. -/
theorem read_acceptStrings (c : Client) (d : ResourceData) :
    (dataSourceVirtualServiceRead (acceptStrings c) d).outcome =
        (dataSourceVirtualServiceRead c d).outcome ∧
      (dataSourceVirtualServiceRead (acceptStrings c) d).calls =
        (dataSourceVirtualServiceRead c d).calls := by
  have hspec : ∀ v, (acceptStrings c).setError "spec" v = c.setError "spec" v := by
    intro v; simp [acceptStrings, stringAttrs]
  have htags : ∀ v, (acceptStrings c).setError "tags" v = c.setError "tags" v := by
    intro v; simp [acceptStrings, stringAttrs]
  rcases hfind : c.findVirtualServiceByThreePartKey (d.GetString "mesh_name")
      (d.GetString "mesh_owner") (d.GetString "name") with reason | _ | vs
  · have hfind' : (acceptStrings c).findVirtualServiceByThreePartKey (d.GetString "mesh_name")
        (d.GetString "mesh_owner") (d.GetString "name") = .error reason := hfind
    simp [dataSourceVirtualServiceRead, hfind, hfind']
  · have hfind' : (acceptStrings c).findVirtualServiceByThreePartKey (d.GetString "mesh_name")
        (d.GetString "mesh_owner") (d.GetString "name") = .ok none := hfind
    simp [dataSourceVirtualServiceRead, hfind, hfind']
  have hfind' : (acceptStrings c).findVirtualServiceByThreePartKey (d.GetString "mesh_name")
      (d.GetString "mesh_owner") (d.GetString "name") = .ok (some vs) := hfind
  rcases hmd : vs.Metadata with _ | md
  · simp [dataSourceVirtualServiceRead, hfind, hfind', hmd]
  rcases hc : md.CreatedAt with _ | createdAt
  · simp [dataSourceVirtualServiceRead, hfind, hfind', hmd, hc]
  rcases hl : md.LastUpdatedAt with _ | lastUpdatedAt
  · simp [dataSourceVirtualServiceRead, hfind, hfind', hmd, hc, hl]
  rw [read_of_present c d vs md createdAt lastUpdatedAt hfind hmd hc hl,
    read_of_present (acceptStrings c) d vs md createdAt lastUpdatedAt hfind' hmd hc hl]
  have hflat : (acceptStrings c).flattenVirtualServiceSpec = c.flattenVirtualServiceSpec := rfl
  rw [hflat, hspec]
  have hcalls : (afterSpec (acceptStrings c) d vs md createdAt lastUpdatedAt).calls =
      (afterSpec c d vs md createdAt lastUpdatedAt).calls := by
    rw [afterSpec_calls, afterSpec_calls, hflat]
  split
  · exact ⟨rfl, hcalls⟩
  · refine ⟨?_, ?_⟩
    · rw [readTags_outcome, readTags_outcome]
      simp only [htags]
      rfl
    · rw [readTags_calls, readTags_calls, hcalls]
      rfl

/-- States claim C6 as amended: if the store rejects the write of `spec`, the
read returns there with the error "setting spec: <reason>", and no tag-list call
or `tags` write follows; if it rejects the write of `tags`, the read returns
with the error "setting tags: <reason>"; a rejected write of arn, created_date,
last_updated_date, mesh_name, mesh_owner, name or resource_owner is not looked
at: outcome and calls of the read are those of the same read on a store that
takes these seven writes. -/
theorem read_write_rejected (c : Client) (d : ResourceData) :
    ((dataSourceVirtualServiceRead c d).outcome =
        (dataSourceVirtualServiceRead (acceptStrings c) d).outcome ∧
      (dataSourceVirtualServiceRead c d).calls =
        (dataSourceVirtualServiceRead (acceptStrings c) d).calls) ∧
    (∀ vs md createdAt lastUpdatedAt,
      c.findVirtualServiceByThreePartKey (d.GetString "mesh_name")
        (d.GetString "mesh_owner") (d.GetString "name") = .ok (some vs) →
      vs.Metadata = some md → md.CreatedAt = some createdAt →
      md.LastUpdatedAt = some lastUpdatedAt →
      (∀ reason,
        c.setError "spec" (.blocks (c.flattenVirtualServiceSpec vs.Spec)) = some reason →
        (dataSourceVirtualServiceRead c d).outcome =
          .returned [{ severity := .Error, summary := "setting spec: " ++ reason }] ∧
        (dataSourceVirtualServiceRead c d).calls.getLast? =
          some (Call.Set "spec" (.blocks (c.flattenVirtualServiceSpec vs.Spec))) ∧
        (dataSourceVirtualServiceRead c d).calls.filter Call.isListTags = [] ∧
        (dataSourceVirtualServiceRead c d).calls.filter (Call.isSetOf "tags") = []) ∧
      (∀ tags reason,
        c.setError "spec" (.blocks (c.flattenVirtualServiceSpec vs.Spec)) = none →
        (StringValue md.MeshOwner = c.AccountID ∧
            c.listTags (StringValue md.Arn) = .ok tags) ∨
          (StringValue md.MeshOwner ≠ c.AccountID ∧ tags = []) →
        c.setError "tags" (.tagMap (KeyValueTags.Map
          (IgnoreConfigFilter (IgnoreAWS tags) c.IgnoreTagsConfig))) = some reason →
        (dataSourceVirtualServiceRead c d).outcome =
          .returned [{ severity := .Error, summary := "setting tags: " ++ reason }] ∧
        (dataSourceVirtualServiceRead c d).calls.getLast? =
          some (Call.Set "tags" (.tagMap (KeyValueTags.Map
            (IgnoreConfigFilter (IgnoreAWS tags) c.IgnoreTagsConfig)))) ∧
        (dataSourceVirtualServiceRead c d).d.attrs "tags" = d.attrs "tags")) := by
  refine ⟨⟨(read_acceptStrings c d).1.symm, (read_acceptStrings c d).2.symm⟩, ?_⟩
  intro vs md createdAt lastUpdatedAt hfind hmd hc hl
  have hrun := read_of_present c d vs md createdAt lastUpdatedAt hfind hmd hc hl
  refine ⟨fun reason hrej => ?_, fun tags reason hspec hcase hrej => ?_⟩
  · rw [hrej] at hrun
    rw [hrun]
    simp only [afterSpec_calls]
    simp [Call.isListTags, Call.isSetOf]
  · rw [hspec] at hrun
    simp only [] at hrun
    have hstore : (afterSpec c d vs md createdAt lastUpdatedAt).d.attrs "tags" = d.attrs "tags" := by
      simp [afterSpec, afterStrings]
    rcases hcase with ⟨hown, hlist⟩ | ⟨hown, rfl⟩
    · refine ⟨?_, ?_, ?_⟩
      · rw [hrun, readTags_outcome]; simp [hown, hlist, hrej, AppendErrorf]
      · rw [hrun, readTags_calls]; simp [hown, hlist]
      · rw [hrun]
        simp only [readTags, setTags, hown, if_true, hlist, Set_snd, hrej]
        rw [Set_attrs]; simp [hrej, hstore]
    · refine ⟨?_, ?_, ?_⟩
      · rw [hrun, readTags_outcome]; simp [hown, hrej, AppendErrorf]
      · rw [hrun, readTags_calls]; simp [hown]
      · rw [hrun]
        simp only [readTags, setTags, hown, if_false, Set_snd, hrej]
        rw [Set_attrs]; simp [hrej, hstore]

/-- Refutes claim C6 as stated: the store rejects the write of `arn`, and the
read goes on to the tag step and returns without any diagnostic. -/
theorem read_write_rejected_arn :
    clientArnRejected.setError "arn"
        (.str "arn:aws:appmesh:us-east-1:A:mesh/m1/virtualService/vs1") =
        some "arn: schema mismatch" ∧
      Call.Set "arn" (.str "arn:aws:appmesh:us-east-1:A:mesh/m1/virtualService/vs1") ∈
        (dataSourceVirtualServiceRead clientArnRejected inputFixture).calls ∧
      (dataSourceVirtualServiceRead clientArnRejected inputFixture).outcome = .returned [] ∧
      (dataSourceVirtualServiceRead clientArnRejected inputFixture).calls.getLast? =
        some (Call.Set "tags" (.tagMap [("env", "prod")])) ∧
      (dataSourceVirtualServiceRead clientArnRejected inputFixture).d.attrs "arn" = none := by
  refine ⟨rfl, ?_, ?_, ?_, ?_⟩ <;> decide

/-- Witness of `read_write_rejected`: the store rejects the write of `spec`. -/
theorem read_write_rejected_witness :
    (clientSpecRejected.findVirtualServiceByThreePartKey (inputFixture.GetString "mesh_name")
        (inputFixture.GetString "mesh_owner") (inputFixture.GetString "name") =
        .ok (some recordFixture) ∧
      recordFixture.Metadata = some metadataFixture ∧
      metadataFixture.CreatedAt = some createdAtFixture ∧
      metadataFixture.LastUpdatedAt = some lastUpdatedAtFixture ∧
      clientSpecRejected.setError "spec"
        (.blocks (clientSpecRejected.flattenVirtualServiceSpec recordFixture.Spec)) =
        some "spec: schema mismatch") ∧
      (dataSourceVirtualServiceRead clientSpecRejected inputFixture).outcome =
        .returned [{ severity := .Error,
                     summary := "setting spec: " ++ "spec: schema mismatch" }] :=
  ⟨⟨rfl, rfl, rfl, rfl, rfl⟩,
    (((read_write_rejected clientSpecRejected inputFixture).2 recordFixture metadataFixture
      createdAtFixture lastUpdatedAtFixture rfl rfl rfl rfl).1 "spec: schema mismatch" rfl).1⟩

/-! ## The tags written -/

/-- The two filters in sequence keep exactly the entries whose key neither is
platform-managed nor is suppressed by the caller's configuration. -/
theorem filters_eq (tags : KeyValueTags) (config : Option IgnoreConfig) :
    KeyValueTags.Map (IgnoreConfigFilter (IgnoreAWS tags) config) =
      tags.filter (fun kv => !HasPrefix kv.1 "aws:" && !configIgnores config kv.1) := by
  cases config with
  | none => simp [KeyValueTags.Map, IgnoreConfigFilter, IgnoreAWS, configIgnores]
  | some cfg =>
    simp [KeyValueTags.Map, IgnoreConfigFilter, IgnoreAWS, configIgnores, List.filter_filter,
      Bool.and_comm]

/-- States claim C9: when the tag-list call returns `raw`, the one value the
read writes to `tags` is the string-to-string map of `raw` after the
platform-managed-tag filter and then the caller's ignore configuration; it is
what the store holds if it takes the write; an entry of `raw` is in the written
map exactly when neither filter removes its key. -/
theorem read_tags_filtered (c : Client) (d : ResourceData) (vs : VirtualServiceData)
    (md : ResourceMetadata) (createdAt lastUpdatedAt : Time) (raw : KeyValueTags)
    (hfind : c.findVirtualServiceByThreePartKey (d.GetString "mesh_name")
      (d.GetString "mesh_owner") (d.GetString "name") = .ok (some vs))
    (hmd : vs.Metadata = some md) (hc : md.CreatedAt = some createdAt)
    (hl : md.LastUpdatedAt = some lastUpdatedAt)
    (hspec : c.setError "spec" (.blocks (c.flattenVirtualServiceSpec vs.Spec)) = none)
    (hown : StringValue md.MeshOwner = c.AccountID)
    (hlist : c.listTags (StringValue md.Arn) = .ok raw) :
    (dataSourceVirtualServiceRead c d).calls.filter (Call.isSetOf "tags") =
        [Call.Set "tags" (.tagMap (KeyValueTags.Map
          (IgnoreConfigFilter (IgnoreAWS raw) c.IgnoreTagsConfig)))] ∧
      (c.setError "tags" (.tagMap (KeyValueTags.Map
          (IgnoreConfigFilter (IgnoreAWS raw) c.IgnoreTagsConfig))) = none →
        (dataSourceVirtualServiceRead c d).d.attrs "tags" =
          some (.tagMap (KeyValueTags.Map
            (IgnoreConfigFilter (IgnoreAWS raw) c.IgnoreTagsConfig)))) ∧
      KeyValueTags.Map (IgnoreConfigFilter (IgnoreAWS raw) c.IgnoreTagsConfig) =
        raw.filter (fun kv => !HasPrefix kv.1 "aws:" && !configIgnores c.IgnoreTagsConfig kv.1) ∧
      (∀ k v, (k, v) ∈ KeyValueTags.Map (IgnoreConfigFilter (IgnoreAWS raw) c.IgnoreTagsConfig) ↔
        (k, v) ∈ raw ∧ HasPrefix k "aws:" = false ∧
          configIgnores c.IgnoreTagsConfig k = false) := by
  have hrun := read_of_present c d vs md createdAt lastUpdatedAt hfind hmd hc hl
  rw [hspec] at hrun
  simp only [] at hrun
  refine ⟨?_, fun hacc => ?_, filters_eq raw c.IgnoreTagsConfig, fun k v => ?_⟩
  · rw [hrun, readTags_calls, afterSpec_calls]
    simp [hown, hlist, Call.isSetOf]
  · rw [hrun]
    simp only [readTags, setTags, hown, if_true, hlist, Set_snd, hacc]
    exact Set_attrs_accept _ _ _ _ hacc
  · rw [filters_eq]
    simp [List.mem_filter]

/-- Witness of `read_tags_filtered`: scenario 1, where `env` is kept and the
platform-managed tag and the tag of an ignored key are dropped. -/
theorem read_tags_filtered_witness :
    (clientFixture.findVirtualServiceByThreePartKey (inputFixture.GetString "mesh_name")
        (inputFixture.GetString "mesh_owner") (inputFixture.GetString "name") =
        .ok (some recordFixture) ∧
      recordFixture.Metadata = some metadataFixture ∧
      metadataFixture.CreatedAt = some createdAtFixture ∧
      metadataFixture.LastUpdatedAt = some lastUpdatedAtFixture ∧
      clientFixture.setError "spec"
        (.blocks (clientFixture.flattenVirtualServiceSpec recordFixture.Spec)) = none ∧
      StringValue metadataFixture.MeshOwner = clientFixture.AccountID ∧
      clientFixture.listTags (StringValue metadataFixture.Arn) =
        .ok [("env", "prod"), ("aws:internal", "x"), ("owner", "me")]) ∧
      (dataSourceVirtualServiceRead clientFixture inputFixture).calls.filter
          (Call.isSetOf "tags") =
        [Call.Set "tags" (.tagMap (KeyValueTags.Map
          (IgnoreConfigFilter (IgnoreAWS [("env", "prod"), ("aws:internal", "x"), ("owner", "me")])
            clientFixture.IgnoreTagsConfig)))] :=
  ⟨⟨rfl, rfl, rfl, rfl, rfl, rfl, rfl⟩,
    (read_tags_filtered clientFixture inputFixture recordFixture metadataFixture
      createdAtFixture lastUpdatedAtFixture _ rfl rfl rfl rfl rfl rfl rfl).1⟩

/-! ## Absent fields -/

/-- States claim C10 as amended: for a record the resolver returns whose
metadata and both timestamps are present, the read returns (no nil-pointer
dereference) and writes the zero value for each absent field: `SetId("")` for
an absent name, the empty string for an absent Arn or MeshOwner, nil for an
absent MeshName, VirtualServiceName or ResourceOwner; so with the name absent
the id is empty, and the attribute of an absent field reads as the empty string
whenever the store accepts that write; an absent Spec is handed to the
flattener. -/
theorem read_absent_fields (c : Client) (d : ResourceData) (vs : VirtualServiceData)
    (md : ResourceMetadata) (createdAt lastUpdatedAt : Time)
    (hfind : c.findVirtualServiceByThreePartKey (d.GetString "mesh_name")
      (d.GetString "mesh_owner") (d.GetString "name") = .ok (some vs))
    (hmd : vs.Metadata = some md) (hc : md.CreatedAt = some createdAt)
    (hl : md.LastUpdatedAt = some lastUpdatedAt) :
    (∃ diags, (dataSourceVirtualServiceRead c d).outcome = .returned diags) ∧
      (vs.VirtualServiceName = none → (dataSourceVirtualServiceRead c d).d.id = "") ∧
      (md.Arn = none → c.setError "arn" (.str "") = none →
        (dataSourceVirtualServiceRead c d).d.GetString "arn" = "") ∧
      (md.MeshOwner = none → c.setError "mesh_owner" (.str "") = none →
        (dataSourceVirtualServiceRead c d).d.GetString "mesh_owner" = "") ∧
      (vs.MeshName = none → c.setError "mesh_name" .null = none →
        (dataSourceVirtualServiceRead c d).d.GetString "mesh_name" = "") ∧
      (vs.VirtualServiceName = none → c.setError "name" .null = none →
        (dataSourceVirtualServiceRead c d).d.GetString "name" = "") ∧
      (md.ResourceOwner = none → c.setError "resource_owner" .null = none →
        (dataSourceVirtualServiceRead c d).d.GetString "resource_owner" = "") ∧
      (vs.Spec = none →
        Call.Set "spec" (.blocks (c.flattenVirtualServiceSpec none)) ∈
          (dataSourceVirtualServiceRead c d).calls) ∧
      (vs.VirtualServiceName = none →
        Call.SetId "" ∈ (dataSourceVirtualServiceRead c d).calls) ∧
      (md.Arn = none →
        Call.Set "arn" (.str "") ∈ (dataSourceVirtualServiceRead c d).calls) ∧
      (md.MeshOwner = none →
        Call.Set "mesh_owner" (.str "") ∈ (dataSourceVirtualServiceRead c d).calls) ∧
      (vs.MeshName = none →
        Call.Set "mesh_name" .null ∈ (dataSourceVirtualServiceRead c d).calls) ∧
      (vs.VirtualServiceName = none →
        Call.Set "name" .null ∈ (dataSourceVirtualServiceRead c d).calls) ∧
      (md.ResourceOwner = none →
        Call.Set "resource_owner" .null ∈ (dataSourceVirtualServiceRead c d).calls) := by
  obtain ⟨hid, hattr⟩ := read_store_of_present c d vs md createdAt lastUpdatedAt hfind hmd hc hl
  obtain ⟨rest, hcalls, -⟩ :=
    read_calls_of_present c d vs md createdAt lastUpdatedAt hfind hmd hc hl
  refine ⟨?_, ?_, ?_, ?_, ?_, ?_, ?_, ?_, ?_, ?_, ?_, ?_, ?_, ?_⟩
  · rw [read_of_present c d vs md createdAt lastUpdatedAt hfind hmd hc hl]
    split
    · exact ⟨_, rfl⟩
    · exact readTags_returns ..
  · intro h; rw [hid, h]; rfl
  · intro h hacc
    rw [ResourceData.GetString, hattr _ (by decide)]
    simp [afterSpec, afterStrings, Set_attrs, h, StringValue, hacc]
  · intro h hacc
    rw [ResourceData.GetString, hattr _ (by decide)]
    simp [afterSpec, afterStrings, Set_attrs, h, StringValue, hacc]
  · intro h hacc
    rw [ResourceData.GetString, hattr _ (by decide)]
    simp [afterSpec, afterStrings, Set_attrs, h, ptrValue, hacc]
  · intro h hacc
    rw [ResourceData.GetString, hattr _ (by decide)]
    simp [afterSpec, afterStrings, Set_attrs, h, ptrValue, hacc]
  · intro h hacc
    rw [ResourceData.GetString, hattr _ (by decide)]
    simp [afterSpec, afterStrings, Set_attrs, h, ptrValue, hacc]
  · intro h
    rw [hcalls, afterSpec_calls, h]
    simp
  · intro h
    rw [hcalls, afterSpec_calls, h]
    simp [StringValue]
  · intro h
    rw [hcalls, afterSpec_calls, h]
    simp [StringValue]
  · intro h
    rw [hcalls, afterSpec_calls, h]
    simp [StringValue]
  · intro h
    rw [hcalls, afterSpec_calls, h]
    simp [ptrValue]
  · intro h
    rw [hcalls, afterSpec_calls, h]
    simp [ptrValue]
  · intro h
    rw [hcalls, afterSpec_calls, h]
    simp [ptrValue]

/-- Refutes claim C10 as stated: for a record without metadata the read sets the
id and then dereferences the nil `Metadata` (line 76); for a record with
metadata but without `CreatedAt` it writes `arn` and then dereferences the nil
timestamp (line 78); and for a record without `MeshName` whose `mesh_name`
write the store rejects, `mesh_name` keeps the caller's input `m1`. -/
theorem read_absent_fields_no_metadata :
    clientNoMetadata.findVirtualServiceByThreePartKey (inputFixture.GetString "mesh_name")
        (inputFixture.GetString "mesh_owner") (inputFixture.GetString "name") =
        .ok (some recordNoMetadata) ∧
      recordNoMetadata.Metadata = none ∧
      (dataSourceVirtualServiceRead clientNoMetadata inputFixture).outcome = .nilDereference ∧
      (dataSourceVirtualServiceRead clientNoMetadata inputFixture).calls =
        [Call.findVirtualServiceByThreePartKey "m1" "" "vs1", Call.SetId "vs1"] ∧
      clientNoCreatedAt.findVirtualServiceByThreePartKey (inputFixture.GetString "mesh_name")
        (inputFixture.GetString "mesh_owner") (inputFixture.GetString "name") =
        .ok (some recordNoCreatedAt) ∧
      (dataSourceVirtualServiceRead clientNoCreatedAt inputFixture).outcome =
        .nilDereference ∧
      (dataSourceVirtualServiceRead clientNoCreatedAt inputFixture).calls =
        [Call.findVirtualServiceByThreePartKey "m1" "" "vs1", Call.SetId "vs1",
          Call.Set "arn" (.str "arn:aws:appmesh:us-east-1:A:mesh/m1/virtualService/vs1")] ∧
      recordSparse.MeshName = none ∧
      (dataSourceVirtualServiceRead clientSparseMeshNameRejected inputFixture).outcome =
        .returned [] ∧
      (dataSourceVirtualServiceRead clientSparseMeshNameRejected inputFixture).d.GetString
        "mesh_name" = "m1" := by
  refine ⟨rfl, rfl, ?_, ?_, rfl, ?_, ?_, rfl, ?_, ?_⟩ <;> decide

/-- Witness of `read_absent_fields`: a record in which only the timestamps are
present. -/
theorem read_absent_fields_witness :
    (clientSparse.findVirtualServiceByThreePartKey (inputFixture.GetString "mesh_name")
        (inputFixture.GetString "mesh_owner") (inputFixture.GetString "name") =
        .ok (some recordSparse) ∧
      recordSparse.Metadata = some metadataSparse ∧
      metadataSparse.CreatedAt = some createdAtFixture ∧
      metadataSparse.LastUpdatedAt = some lastUpdatedAtFixture ∧
      recordSparse.MeshName = none ∧
      clientSparse.setError "mesh_name" .null = none) ∧
      (∃ diags, (dataSourceVirtualServiceRead clientSparse inputFixture).outcome =
        .returned diags) ∧
      (dataSourceVirtualServiceRead clientSparse inputFixture).d.GetString "mesh_name" = "" ∧
      Call.Set "mesh_name" .null ∈
        (dataSourceVirtualServiceRead clientSparse inputFixture).calls :=
  have h := read_absent_fields clientSparse inputFixture recordSparse metadataSparse
    createdAtFixture lastUpdatedAtFixture rfl rfl rfl rfl
  ⟨⟨rfl, rfl, rfl, rfl, rfl, rfl⟩, h.1, h.2.2.2.2.1 rfl rfl,
    h.2.2.2.2.2.2.2.2.2.2.2.1 rfl⟩

/-! ## The timestamps written -/

/-- States claim C7 as amended: for a record whose timestamps are in the range
RFC 3339 can express, the strings the read writes to `created_date` and
`last_updated_date` are RFC 3339 to the second, without the nanoseconds; each
ends in `Z`, not in a numeric offset, when its zone offset is zero (UTC), and in
a numeric offset `+hh:mm` or `-hh:mm` otherwise. -/
theorem read_timestamps (c : Client) (d : ResourceData) (vs : VirtualServiceData)
    (md : ResourceMetadata) (createdAt lastUpdatedAt : Time)
    (hfind : c.findVirtualServiceByThreePartKey (d.GetString "mesh_name")
      (d.GetString "mesh_owner") (d.GetString "name") = .ok (some vs))
    (hmd : vs.Metadata = some md) (hc : md.CreatedAt = some createdAt)
    (hl : md.LastUpdatedAt = some lastUpdatedAt)
    (hrc : createdAt.InRange) (hrl : lastUpdatedAt.InRange) :
    (dataSourceVirtualServiceRead c d).calls.filter (Call.isSetOf "created_date") =
        [Call.Set "created_date" (.str createdAt.Format_RFC3339)] ∧
      (dataSourceVirtualServiceRead c d).calls.filter (Call.isSetOf "last_updated_date") =
        [Call.Set "last_updated_date" (.str lastUpdatedAt.Format_RFC3339)] ∧
      (∀ t, t = createdAt ∨ t = lastUpdatedAt →
        isRFC3339Seconds t.Format_RFC3339 = true ∧
        (∀ n, ({ t with nsec := n } : Time).Format_RFC3339 = t.Format_RFC3339) ∧
        (t.offset = 0 → t.Format_RFC3339.data.getLast? = some 'Z' ∧
          endsInNumericOffset t.Format_RFC3339 = false) ∧
        (t.offset ≠ 0 → endsInNumericOffset t.Format_RFC3339 = true)) := by
  obtain ⟨rest, hcalls, hrest⟩ :=
    read_calls_of_present c d vs md createdAt lastUpdatedAt hfind hmd hc hl
  have hfilter : ∀ k, k ≠ "tags" → rest.filter (Call.isSetOf k) = [] := by
    intro k hk
    rw [List.filter_eq_nil_iff]
    intro x hx
    rcases hrest x hx with rfl | ⟨v, rfl⟩
    · simp [Call.isSetOf]
    · simpa [Call.isSetOf] using fun h => hk h.symm
  refine ⟨?_, ?_, ?_⟩
  · rw [hcalls, List.filter_append, hfilter _ (by decide), afterSpec_calls]
    simp [Call.isSetOf]
  · rw [hcalls, List.filter_append, hfilter _ (by decide), afterSpec_calls]
    simp [Call.isSetOf]
  · intro t ht
    have hr : t.InRange := by rcases ht with rfl | rfl <;> assumption
    obtain ⟨h1, h2, h3⟩ := Format_RFC3339_shape t hr
    exact ⟨h1, fun n => Format_RFC3339_nsec t n, h2, h3⟩

/-- Refutes claim C7 as stated: the creation time of the fixture is in UTC, the
read writes `2023-01-02T03:04:05Z` to `created_date`, and that string ends in
`Z`, not in a numeric offset. -/
theorem read_timestamps_utc :
    createdAtFixture.offset = 0 ∧
      Call.Set "created_date" (.str "2023-01-02T03:04:05Z") ∈
        (dataSourceVirtualServiceRead clientFixture inputFixture).calls ∧
      (dataSourceVirtualServiceRead clientFixture inputFixture).d.attrs "created_date" =
        some (.str "2023-01-02T03:04:05Z") ∧
      endsInNumericOffset "2023-01-02T03:04:05Z" = false := by
  refine ⟨rfl, ?_, ?_, ?_⟩ <;> decide

/-- Witness of `read_timestamps`: scenario 1, with a creation time in UTC and an
update time at `+05:30`. -/
theorem read_timestamps_witness :
    (clientFixture.findVirtualServiceByThreePartKey (inputFixture.GetString "mesh_name")
        (inputFixture.GetString "mesh_owner") (inputFixture.GetString "name") =
        .ok (some recordFixture) ∧
      recordFixture.Metadata = some metadataFixture ∧
      metadataFixture.CreatedAt = some createdAtFixture ∧
      metadataFixture.LastUpdatedAt = some lastUpdatedAtFixture ∧
      createdAtFixture.InRange ∧ lastUpdatedAtFixture.InRange) ∧
      (dataSourceVirtualServiceRead clientFixture inputFixture).calls.filter
          (Call.isSetOf "last_updated_date") =
        [Call.Set "last_updated_date" (.str lastUpdatedAtFixture.Format_RFC3339)] ∧
      endsInNumericOffset lastUpdatedAtFixture.Format_RFC3339 = true :=
  ⟨⟨rfl, rfl, rfl, rfl, by decide, by decide⟩,
    (read_timestamps clientFixture inputFixture recordFixture metadataFixture createdAtFixture
      lastUpdatedAtFixture rfl rfl rfl rfl (by decide) (by decide)).2.1,
    ((read_timestamps clientFixture inputFixture recordFixture metadataFixture createdAtFixture
      lastUpdatedAtFixture rfl rfl rfl rfl (by decide) (by decide)).2.2 lastUpdatedAtFixture
      (Or.inr rfl)).2.2.2 (by decide)⟩

/-! ## The scenarios of §8, evaluated -/

/-- Witness of `read_resolver_call`: scenario 1, where the caller omits
`mesh_owner` and the resolver is called with the empty string, not with the
caller's account `A`. -/
theorem read_resolver_call_witness :
    inputFixture.attrs "mesh_owner" = none ∧
      (dataSourceVirtualServiceRead clientFixture inputFixture).calls.filter Call.isFind =
        [Call.findVirtualServiceByThreePartKey (inputFixture.GetString "mesh_name") ""
          (inputFixture.GetString "name")] :=
  ⟨rfl, (read_resolver_call clientFixture inputFixture).2 rfl⟩

/-- Scenario 1: the two timestamps of the fixture record as rendered. -/
theorem scenario_timestamps :
    createdAtFixture.Format_RFC3339 = "2023-01-02T03:04:05Z" ∧
      lastUpdatedAtFixture.Format_RFC3339 = "2023-06-07T08:09:10+05:30" := by
  decide

/-- Scenario 1: the read succeeds, `tags` holds `env` only, and `spec` holds the
virtual-node variant alone. -/
theorem scenario_same_account :
    (dataSourceVirtualServiceRead clientFixture inputFixture).outcome = .returned [] ∧
      (dataSourceVirtualServiceRead clientFixture inputFixture).d.id = "vs1" ∧
      (dataSourceVirtualServiceRead clientFixture inputFixture).d.attrs "tags" =
        some (.tagMap [("env", "prod")]) ∧
      (dataSourceVirtualServiceRead clientFixture inputFixture).d.attrs "spec" =
        some (.blocks [{ provider := [{ virtual_node := ["vn1"], virtual_router := [] }] }]) := by
  refine ⟨?_, ?_, ?_, ?_⟩ <;> decide

/-- Scenario 2: the caller does not own the mesh; no tag-list call is made and
`tags` is the empty mapping. -/
theorem scenario_cross_account :
    (dataSourceVirtualServiceRead clientCrossAccount inputFixture).outcome = .returned [] ∧
      (dataSourceVirtualServiceRead clientCrossAccount inputFixture).calls.filter
        Call.isListTags = [] ∧
      (dataSourceVirtualServiceRead clientCrossAccount inputFixture).d.attrs "tags" =
        some (.tagMap []) ∧
      (dataSourceVirtualServiceRead clientCrossAccount inputFixture).d.attrs "mesh_owner" =
        some (.str "A") := by
  refine ⟨?_, ?_, ?_, ?_⟩ <;> decide

/-- The store rejects the write of `tags`: the read returns "setting tags". -/
theorem scenario_tags_rejected :
    (dataSourceVirtualServiceRead clientTagsRejected inputFixture).outcome =
      .returned [{ severity := .Error, summary := "setting tags: tags: schema mismatch" }] := by
  decide

end AppMesh
